import Mathlib

/-!
Verification of the deltaroutes reservation core.

The definitions below are a shallow embedding of the reservation
allocation and lifecycle code of the repository:

* capacity ledger (`committedSeats`, `freeSeats`, `guideLoad`) — the
  Prisma `aggregate` / `groupBy` queries used at every allocation
  decision (src/app/api/reservations route, waiting/claim route);
* guide assignment (`pickLeastLoaded`, `pickGuide`);
* reservation creation (`createReservation`, the POST handler of the
  pax-based reservations route);
* the waitlist claim transaction (`claimTx`) and its HTTP wrapper;
* the two payment-reconciliation paths (`webhookCompleted`,
  `webhookExpired` for the Stripe webhook, `statusGet` for the
  payments/status poll);
* the hold-expiry sweeper (`sweep`, admin/cleanup-holds route);
* the waitlist notifier loop (`runNotify`, admin/waitlist/notify route).

Machine timestamps are `Nat` (milliseconds); database rows are Lean
structures; each route handler is a pure function from the database
state it reads (plus the external oracle's answers) to its HTTP
response and the updated rows.  JavaScript's stable `Array.sort` is
embedded as `List.insertionSort`, which is stable.
-/

namespace DeltaRoutes

/-- `ReservationStatus` enum of the Prisma schema. -/
inductive ReservationStatus where
  | HOLD | CONFIRMED | WAITING | CANCELLED | EXPIRED
deriving DecidableEq, Repr

/-- `PaymentStatus` enum of the Prisma schema. -/
inductive PaymentStatus where
  | NOT_REQUIRED | REQUIRES_PAYMENT | PENDING | SUCCEEDED | FAILED | CANCELED | REFUNDED
deriving DecidableEq, Repr

/-- `LanguageCode` enum of the Prisma schema (base languages CA/ES/EN plus extras). -/
inductive LanguageCode where
  | CA | ES | EN | DE | FR | IT
deriving DecidableEq, Repr

/-- A `Session` row (the fields the reservation core reads). -/
structure Session where
  id : Nat
  maxSeatsTotal : Nat
  maxPerGuide : Nat
  startAt : Nat
  bookingClosesAt : Nat
  adultPriceCents : Nat
  minorPriceCents : Nat
  currency : String
  requiresPayment : Bool
  isCancelled : Bool
deriving DecidableEq, Repr

/-- A `Reservation` row (the fields the reservation core reads and writes). -/
structure Reservation where
  id : Nat
  sessionId : Nat
  customerId : Nat
  guideUserId : Option Nat
  status : ReservationStatus
  holdExpiresAt : Option Nat
  adultsCount : Nat
  minorsCount : Nat
  totalPax : Nat
  tourLanguage : Option LanguageCode
  browserLanguage : Option LanguageCode
  createdAt : Nat
  createdEmailSentAt : Option Nat
  confirmedEmailSentAt : Option Nat
  availabilityEmailSentAt : Option Nat
deriving DecidableEq, Repr

/-- A `Payment` row (one-to-one with a reservation). -/
structure Payment where
  reservationId : Nat
  status : PaymentStatus
  amountCents : Int
  currency : String
  stripeCheckoutSessionId : Option String
  stripePaymentIntentId : Option String
deriving DecidableEq, Repr

/-- A `Customer` row; emails are modelled as numeric keys. -/
structure Customer where
  id : Nat
  email : Nat
  name : String
  phone : Option String
deriving DecidableEq, Repr

/-- A `User` row with role GUIDE (the fields guide assignment reads). -/
structure Guide where
  id : Nat
  isActive : Bool
  languages : List LanguageCode
deriving DecidableEq, Repr

/-- The database state touched by the reservation core. -/
structure DB where
  sessions : List Session
  customers : List Customer
  reservations : List Reservation
  payments : List Payment
  guides : List Guide
deriving DecidableEq, Repr

/-! ### Capacity ledger -/

/-- The `holdExpiresAt: { gt: now }` Prisma predicate: a null expiry never matches. -/
def liveHold (now : Nat) (r : Reservation) : Bool :=
  r.status == ReservationStatus.HOLD &&
    (match r.holdExpiresAt with
     | some t => decide (now < t)
     | none => false)

/-- One row of the ledger's WHERE clause: status CONFIRMED, or HOLD with a live expiry. -/
def countsSeat (now : Nat) (r : Reservation) : Bool :=
  r.status == ReservationStatus.CONFIRMED || liveHold now r

/-- `committedSeats`: SUM(totalPax) over the session's CONFIRMED or live-HOLD rows. -/
def committedSeats (rs : List Reservation) (sid : Nat) (now : Nat) : Nat :=
  match rs with
  | [] => 0
  | r :: rest =>
    (if r.sessionId = sid ∧ countsSeat now r then r.totalPax else 0) +
      committedSeats rest sid now

/-- `freeSeats = Math.max(0, maxSeatsTotal - reservedSeats)`
(truncated `Nat` subtraction is exactly `max 0` of the integer difference). -/
def freeSeats (s : Session) (rs : List Reservation) (now : Nat) : Nat :=
  s.maxSeatsTotal - committedSeats rs s.id now

/-- `guideLoad`: the same SUM restricted to rows assigned to one guide
(the `groupBy guideUserId` query of `pickLeastLoaded`). -/
def guideLoad (rs : List Reservation) (sid : Nat) (gid : Nat) (now : Nat) : Nat :=
  match rs with
  | [] => 0
  | r :: rest =>
    (if r.sessionId = sid ∧ r.guideUserId = some gid ∧ countsSeat now r
     then r.totalPax else 0) + guideLoad rest sid gid now

/-! ### Guide assignment -/

/-- `isBaseLanguage`: CA, ES and EN are covered by every guide by contract. -/
def isBaseLanguage (l : LanguageCode) : Bool :=
  l == LanguageCode.CA || l == LanguageCode.ES || l == LanguageCode.EN

/-- `pickLeastLoaded(guideIds)`: load each candidate's pax sum from the
ledger, sort ascending by load (stable, as JS `Array.sort`), and take the
first whose `load + totalPax <= session.maxPerGuide`. -/
def pickLeastLoaded (rs : List Reservation) (s : Session) (now : Nat)
    (totalPax : Nat) (guideIds : List Nat) : Option Nat :=
  if guideIds.isEmpty then none
  else
    ((List.insertionSort (fun a b : Nat × Nat => a.2 ≤ b.2)
        (guideIds.map (fun gid => (gid, guideLoad rs s.id gid now)))).find?
      (fun g => g.2 + totalPax ≤ s.maxPerGuide)).map (fun g => g.1)

/-- The preferred tier: when the detected browser language is a non-base
language, only the guides speaking it; otherwise the empty pool. -/
def preferredGuides (cands : List Guide) (browserLanguage : Option LanguageCode) :
    List Guide :=
  match browserLanguage with
  | some bl => if isBaseLanguage bl then [] else cands.filter (fun g => g.languages.contains bl)
  | none => []

/-- The two-tier selection used by both reservation creation and the
waitlist claim: first the preferred tier, then the full candidate pool. -/
def pickGuide (rs : List Reservation) (s : Session) (now : Nat) (totalPax : Nat)
    (cands : List Guide) (browserLanguage : Option LanguageCode) : Option Nat :=
  match pickLeastLoaded rs s now totalPax
      ((preferredGuides cands browserLanguage).map (fun g => g.id)) with
  | some gid => some gid
  | none => pickLeastLoaded rs s now totalPax (cands.map (fun g => g.id))

/-! ### Reservation creation (pax-based POST handler) -/

/-- `HOLD_MINUTES` from `config/app` (the in-repo reservations route pins it to 15). -/
def HOLD_MINUTES : Nat := 15

/-- The hold window the creation and claim handlers actually write:
`(HOLD_MINUTES + 1) * 60 * 1000` milliseconds. -/
def HOLD_DURATION_MS : Nat := (HOLD_MINUTES + 1) * 60 * 1000

/-- The decoded request body of the creation POST.  Presence of the
required string fields is the truthiness test of the handler; the pax
counts arrive as arbitrary integers (`toInt`). -/
structure CreateRequest where
  sessionId : Option Nat
  customerName : Option String
  customerEmail : Option Nat
  customerPhone : Option String
  tourLanguage : Option LanguageCode
  adultsCount : Int
  minorsCount : Int
  browserLanguage : Option LanguageCode
deriving DecidableEq, Repr

/-- Outcome of the creation POST, as sent to the client. -/
inductive CreateResult where
  | error (httpStatus : Nat) (msg : String)
  | waiting (reservationId : Nat)
  | hold (reservationId : Nat) (holdExpiresAt : Nat)
deriving DecidableEq, Repr

/-- `customer.upsert({where: {email}})`: reuse the row with that email
(updating name/phone) or create a fresh one with id `newId`.
Returns the customer id and the updated table. -/
def upsertCustomer (cs : List Customer) (email : Nat) (name : String)
    (phone : Option String) (newId : Nat) : Nat × List Customer :=
  match cs.find? (fun c => c.email == email) with
  | some c =>
    (c.id,
     cs.map (fun d => if d.email == email
       then { d with name := name,
                     phone := if phone.isSome then phone else d.phone } else d))
  | none =>
    (newId, cs ++ [{ id := newId, email := email, name := name, phone := phone }])

/-- The WAITING row the creation handler inserts (no guide, no hold timer). -/
def mkWaitingRow (rid : Nat) (s : Session) (cid : Nat) (req : CreateRequest)
    (now : Nat) (adults minors : Nat) : Reservation :=
  { id := rid, sessionId := s.id, customerId := cid, guideUserId := none,
    status := ReservationStatus.WAITING, holdExpiresAt := none,
    adultsCount := adults, minorsCount := minors, totalPax := adults + minors,
    tourLanguage := req.tourLanguage, browserLanguage := req.browserLanguage,
    createdAt := now, createdEmailSentAt := none, confirmedEmailSentAt := none,
    availabilityEmailSentAt := none }

/-- The HOLD row the creation handler inserts when capacity and a guide
are available. -/
def mkHoldRow (rid : Nat) (s : Session) (cid gid : Nat) (req : CreateRequest)
    (now adults minors : Nat) : Reservation :=
  { id := rid, sessionId := s.id, customerId := cid, guideUserId := some gid,
    status := ReservationStatus.HOLD, holdExpiresAt := some (now + HOLD_DURATION_MS),
    adultsCount := adults, minorsCount := minors, totalPax := adults + minors,
    tourLanguage := req.tourLanguage, browserLanguage := req.browserLanguage,
    createdAt := now, createdEmailSentAt := none, confirmedEmailSentAt := none,
    availabilityEmailSentAt := none }

/-- The placeholder Payment row created with a HOLD: the amount is always
recomputed server-side from pax counts and the session's prices. -/
def mkHoldPayment (rid : Nat) (s : Session) (adults minors : Nat) : Payment :=
  if s.requiresPayment then
    { reservationId := rid, status := PaymentStatus.REQUIRES_PAYMENT,
      amountCents := (adults * s.adultPriceCents + minors * s.minorPriceCents : Nat),
      currency := s.currency,
      stripeCheckoutSessionId := none, stripePaymentIntentId := none }
  else
    { reservationId := rid, status := PaymentStatus.NOT_REQUIRED,
      amountCents := 0, currency := s.currency,
      stripeCheckoutSessionId := none, stripePaymentIntentId := none }

/-- The customer upsert of the creation handler, keyed by email. -/
def upC (db : DB) (req : CreateRequest) (newCustomerId : Nat) : Nat × List Customer :=
  upsertCustomer db.customers (req.customerEmail.getD 0) (req.customerName.getD "")
    req.customerPhone newCustomerId

/-- `POST /api/reservations` (the pax-based variant): validation, session
lookup, customer upsert, duplicate check, capacity ledger, guide
assignment, then a WAITING or HOLD insert with its Payment row.
`newCustomerId`/`newReservationId` are the ids the store would mint. -/
def createReservation (db : DB) (req : CreateRequest) (now : Nat)
    (newCustomerId newReservationId : Nat) : CreateResult × DB :=
  if req.sessionId.isNone || req.customerName.isNone || req.customerEmail.isNone ||
      req.tourLanguage.isNone then
    (CreateResult.error 400 "Missing required fields", db)
  else if req.adultsCount < 1 then
    (CreateResult.error 400 "adultsCount must be a number >= 1", db)
  else if req.minorsCount < 0 then
    (CreateResult.error 400 "minorsCount must be a number >= 0", db)
  else
    match db.sessions.find? (fun s => some s.id == req.sessionId) with
    | none => (CreateResult.error 404 "Session not found", db)
    | some s =>
      if s.isCancelled then
        (CreateResult.error 400 "Session is cancelled", db)
      else if s.bookingClosesAt < now then
        (CreateResult.error 400 "Booking is closed for this session", db)
      else if db.reservations.any (fun r => r.sessionId == s.id &&
          r.customerId == (upC db req newCustomerId).1) then
        (CreateResult.error 409 "Customer already has a reservation for this session",
         { db with customers := (upC db req newCustomerId).2 })
      else if freeSeats s db.reservations now <
          req.adultsCount.toNat + req.minorsCount.toNat then
        (CreateResult.waiting newReservationId,
         { db with
             customers := (upC db req newCustomerId).2,
             reservations := db.reservations ++
               [mkWaitingRow newReservationId s (upC db req newCustomerId).1
                 req now req.adultsCount.toNat req.minorsCount.toNat] })
      else if (db.guides.filter (fun g => g.isActive)).isEmpty then
        (CreateResult.waiting newReservationId,
         { db with
             customers := (upC db req newCustomerId).2,
             reservations := db.reservations ++
               [mkWaitingRow newReservationId s (upC db req newCustomerId).1
                 req now req.adultsCount.toNat req.minorsCount.toNat] })
      else
        match pickGuide db.reservations s now
            (req.adultsCount.toNat + req.minorsCount.toNat)
            (db.guides.filter (fun g => g.isActive)) req.browserLanguage with
        | none =>
          (CreateResult.waiting newReservationId,
           { db with
               customers := (upC db req newCustomerId).2,
               reservations := db.reservations ++
                 [mkWaitingRow newReservationId s (upC db req newCustomerId).1
                   req now req.adultsCount.toNat req.minorsCount.toNat] })
        | some gid =>
          (CreateResult.hold newReservationId (now + HOLD_DURATION_MS),
           { db with
               customers := (upC db req newCustomerId).2,
               reservations := db.reservations ++
                 [mkHoldRow newReservationId s (upC db req newCustomerId).1
                   gid req now req.adultsCount.toNat req.minorsCount.toNat],
               payments := db.payments ++
                 [mkHoldPayment newReservationId s
                   req.adultsCount.toNat req.minorsCount.toNat] })

/-! ### Waitlist claim (`POST /api/reservations/waiting/claim`) -/

/-- Decoded body of the claim POST. -/
structure ClaimBody where
  waitingId : Option Nat
  customerName : Option String
  customerPhone : Option String
  tourLanguage : Option LanguageCode
deriving DecidableEq, Repr

/-- Business outcome computed inside the claim transaction. -/
inductive ClaimTxResult where
  | failed (httpStatus : Nat) (msg : String)
  | claimed (reservationId : Nat) (holdExpiresAt : Nat)
deriving DecidableEq, Repr

/-- The claim route's `customer.update` (name/phone refresh at claim time). -/
def claimCustomerUpdate (cs : List Customer) (body : ClaimBody)
    (waiting : Reservation) : List Customer :=
  cs.map (fun c =>
    if c.id == waiting.customerId
    then { c with name := body.customerName.getD c.name,
                  phone := if body.customerPhone.isSome then body.customerPhone
                           else c.phone }
    else c)

/-- The WAITING → HOLD update the claim route writes, keyed by id only. -/
def promoteRow (wid hexp gid : Nat) (lang : Option LanguageCode)
    (r : Reservation) : Reservation :=
  if r.id == wid then
    { r with status := ReservationStatus.HOLD, holdExpiresAt := some hexp,
             guideUserId := some gid, tourLanguage := lang }
  else r

/-- The Payment row upserted at claim time, with the amount recomputed
from the waiting party's pax counts and the session's prices. -/
def claimPayment (s : Session) (waiting : Reservation) : Payment :=
  if s.requiresPayment then
    { reservationId := waiting.id, status := PaymentStatus.REQUIRES_PAYMENT,
      amountCents := (waiting.adultsCount * s.adultPriceCents +
        waiting.minorsCount * s.minorPriceCents : Nat),
      currency := s.currency,
      stripeCheckoutSessionId := none, stripePaymentIntentId := none }
  else
    { reservationId := waiting.id, status := PaymentStatus.NOT_REQUIRED,
      amountCents := 0, currency := s.currency,
      stripeCheckoutSessionId := none, stripePaymentIntentId := none }

/-- The whole write set of a successful claim: customers refreshed, the
waiting row promoted to HOLD, the payment upserted. -/
def claimApply (db : DB) (body : ClaimBody) (waiting : Reservation)
    (s : Session) (gid now : Nat) : DB :=
  { db with
    customers := claimCustomerUpdate db.customers body waiting,
    reservations := db.reservations.map
      (promoteRow waiting.id (now + HOLD_DURATION_MS) gid body.tourLanguage),
    payments :=
      if db.payments.any (fun p => p.reservationId == waiting.id) then
        db.payments.map (fun p =>
          if p.reservationId == waiting.id then claimPayment s waiting else p)
      else db.payments ++ [claimPayment s waiting] }

/-- The body of the claim route's single `prisma.$transaction` callback:
load the WAITING reservation and its session, re-validate status,
cancellation, closing time and capacity, re-run guide assignment, then
update the row to HOLD by id and upsert its Payment.  Throwing lookups
are surfaced as `none`. -/
def claimTx (db : DB) (body : ClaimBody) (now : Nat) :
    Option (ClaimTxResult × DB) :=
  match db.reservations.find? (fun r => some r.id == body.waitingId) with
  | none => none
  | some waiting =>
    if waiting.status ≠ ReservationStatus.WAITING then
      some (ClaimTxResult.failed 400 "Reservation is not WAITING", db)
    else
      match db.sessions.find? (fun s => s.id == waiting.sessionId) with
      | none => none
      | some s =>
        if s.isCancelled then
          some (ClaimTxResult.failed 400 "Session is cancelled", db)
        else if s.bookingClosesAt < now then
          some (ClaimTxResult.failed 400 "Booking is closed for this session", db)
        else if freeSeats s db.reservations now < waiting.totalPax then
          some (ClaimTxResult.failed 409 "Not enough free seats right now", db)
        else
          match pickGuide db.reservations s now waiting.totalPax
              (db.guides.filter (fun g => g.isActive)) waiting.browserLanguage with
          | none =>
            some (ClaimTxResult.failed 409 "No guide available right now",
              { db with customers := claimCustomerUpdate db.customers body waiting })
          | some gid =>
            some (ClaimTxResult.claimed waiting.id (now + HOLD_DURATION_MS),
              claimApply db body waiting s gid now)

/-- Errors the transaction layer can raise on an attempt. -/
inductive TxError where
  | serializationConflict
  | other (msg : String)
deriving DecidableEq, Repr

/-- HTTP response of the claim route. -/
inductive ClaimResponse where
  | ok (reservationId : Nat) (holdExpiresAt : Nat)
  | err (httpStatus : Nat) (msg : String)
deriving DecidableEq, Repr

/-- The claim route's POST around the transaction.  The handler invokes
`prisma.$transaction` exactly once — `attempts 0` — inside a single
try/catch; a thrown transaction error of any kind is returned as
HTTP 500 with no retry. -/
def claimPost (body : ClaimBody) (attempts : Nat → Except TxError (ClaimTxResult × DB)) :
    ClaimResponse :=
  if body.waitingId.isNone ∨ body.customerName.isNone ∨ body.tourLanguage.isNone then
    ClaimResponse.err 400 "Missing required fields"
  else
    match attempts 0 with
    | Except.error TxError.serializationConflict =>
      ClaimResponse.err 500 "serialization conflict"
    | Except.error (TxError.other msg) => ClaimResponse.err 500 msg
    | Except.ok (ClaimTxResult.failed st msg, _) => ClaimResponse.err st msg
    | Except.ok (ClaimTxResult.claimed rid exp, _) => ClaimResponse.ok rid exp

/-- Modelled from the spec: the claim operation the spec describes retries
the whole transaction on a serialization-conflict error up to a fixed
bound of attempts before surfacing failure.  The retry wrapper itself is
not present under `src/`; this definition follows the spec's words. -/
def specClaimWithRetry (body : ClaimBody)
    (attempts : Nat → Except TxError (ClaimTxResult × DB)) : Nat → ClaimResponse
  | 0 => ClaimResponse.err 500 "serialization conflict"
  | Nat.succ n =>
    if body.waitingId.isNone ∨ body.customerName.isNone ∨ body.tourLanguage.isNone then
      ClaimResponse.err 400 "Missing required fields"
    else
      match attempts 0 with
      | Except.error TxError.serializationConflict =>
        specClaimWithRetry body (fun k => attempts (k + 1)) n
      | Except.error (TxError.other msg) => ClaimResponse.err 500 msg
      | Except.ok (ClaimTxResult.failed st msg, _) => ClaimResponse.err st msg
      | Except.ok (ClaimTxResult.claimed rid exp, _) => ClaimResponse.ok rid exp

/-! ### Payment reconciliation: webhook push path and status-poll pull path -/

/-- ASCII lower-casing of a character, as JS `toLowerCase` acts on the
currency codes involved here. -/
def lowerChar (c : Char) : Char :=
  if 'A' ≤ c ∧ c ≤ 'Z' then Char.ofNat (c.toNat + 32) else c

/-- JS `toLowerCase` on ASCII strings (currency codes). -/
def strLower (s : String) : String := String.mk (s.data.map lowerChar)

/-- The fields of a Stripe checkout session the reconciliation code reads. -/
structure StripeSession where
  id : String
  paymentStatus : String
  amountTotal : Option Int
  currency : Option String
  paymentIntentId : Option String
deriving DecidableEq, Repr

/-- Response of the `checkout.session.completed` webhook branch. -/
inductive WebhookOutcome where
  | ignored (reason : String)
  | alreadyConfirmed
  | notFound
  | confirmed
  | serverError (msg : String)
deriving DecidableEq, Repr

/-- HTTP status the webhook route sends for each outcome: 200 for
processed-or-ignored, 404 for a missing reservation/payment, and 500 for
a thrown error (so Stripe retries). -/
def webhookHttpStatus : WebhookOutcome → Nat
  | WebhookOutcome.notFound => 404
  | WebhookOutcome.serverError _ => 500
  | _ => 200

/-- The `checkout.session.completed` branch of the webhook POST: ignore
unpaid events, look up the reservation and its payment, no-op when
already CONFIRMED+SUCCEEDED or when the reservation is not HOLD, verify
amount and currency against the Payment row (a mismatch throws, becoming
a 500), then atomically set Payment SUCCEEDED and Reservation CONFIRMED,
and send the confirmation email only if the conditional one-shot update
of `confirmedEmailSentAt` from null applied.  Returns the outcome, the
updated rows, and whether the email side-effect fired. -/
def webhookCompleted (ss : StripeSession)
    (lookup : Option (Reservation × Payment)) (now : Nat) :
    WebhookOutcome × Option (Reservation × Payment) × Bool :=
  if ss.paymentStatus ≠ "paid" then
    (WebhookOutcome.ignored "not_paid", lookup, false)
  else
    match lookup with
    | none => (WebhookOutcome.notFound, none, false)
    | some (res, pay) =>
      if res.status = ReservationStatus.CONFIRMED ∧
          pay.status = PaymentStatus.SUCCEEDED then
        (WebhookOutcome.alreadyConfirmed, some (res, pay), false)
      else if res.status ≠ ReservationStatus.HOLD then
        (WebhookOutcome.ignored "reservation_not_hold", some (res, pay), false)
      else
        match ss.amountTotal, ss.currency with
        | none, _ =>
          (WebhookOutcome.serverError "Stripe session.amount_total is null",
           some (res, pay), false)
        | _, none =>
          (WebhookOutcome.serverError "Stripe session.currency is null",
           some (res, pay), false)
        | some amt, some cur =>
          if amt ≠ pay.amountCents ∨ strLower cur ≠ strLower pay.currency then
            (WebhookOutcome.serverError "Amount/currency mismatch",
             some (res, pay), false)
          else
            let pay1 := { pay with status := PaymentStatus.SUCCEEDED,
                                   stripeCheckoutSessionId := some ss.id,
                                   stripePaymentIntentId := ss.paymentIntentId }
            let res1 := { res with status := ReservationStatus.CONFIRMED,
                                   holdExpiresAt := none }
            if res1.confirmedEmailSentAt = none then
              (WebhookOutcome.confirmed,
               some ({ res1 with confirmedEmailSentAt := some now }, pay1), true)
            else
              (WebhookOutcome.confirmed, some (res1, pay1), false)

/-- The `checkout.session.expired` branch of the webhook POST: ignore a
missing reservation, no-op when CONFIRMED+SUCCEEDED, and transition only
HOLD reservations to EXPIRED (cancelling the payment); every other state
is left untouched.  (This branch always answers HTTP 200.) -/
def webhookExpired (lookup : Option (Reservation × Payment)) :
    Option (Reservation × Payment) :=
  match lookup with
  | none => none
  | some (res, pay) =>
    if res.status = ReservationStatus.CONFIRMED ∧
        pay.status = PaymentStatus.SUCCEEDED then
      some (res, pay)
    else if res.status = ReservationStatus.HOLD then
      some ({ res with status := ReservationStatus.EXPIRED, holdExpiresAt := none },
            { pay with status := PaymentStatus.CANCELED })
    else
      some (res, pay)

/-- `isPendingPaymentStatus` of the status route. -/
def isPendingPaymentStatus (s : PaymentStatus) : Bool :=
  s == PaymentStatus.PENDING || s == PaymentStatus.REQUIRES_PAYMENT

/-- Response body of `GET /api/payments/status`. -/
inductive StatusResponse where
  | notFound
  | report (reservationStatus : ReservationStatus) (paymentStatus : PaymentStatus)
      (reconciled : Bool) (reconcileError : Option String)
deriving DecidableEq, Repr

/-- HTTP status of the status route: 404 when the payment row is not
found yet, and 200 for every other answer — including a failed
reconciliation, which is reported in the body, not as a 5xx. -/
def statusHttpStatus : StatusResponse → Nat
  | StatusResponse.notFound => 404
  | StatusResponse.report _ _ _ _ => 200

/-- `GET /api/payments/status` (the pull path): report the stored state;
when it is HOLD with a pending payment, query the Stripe oracle and
self-heal by applying the same confirm transition if Stripe reports
paid.  Any error inside the reconciliation try-block — oracle failure,
null amount or currency, or an amount/currency mismatch — is caught and
reported as `reconcileError` in a 200 response with the rows unchanged.
On a successful reconcile the confirmation email is sent whenever the
customer has an email address, with no `confirmedEmailSentAt` gate.
`lookup` is the payment row found by checkout-session id, joined with
its reservation and whether the customer has an email. -/
def statusGet (lookup : Option (Reservation × Payment × Bool))
    (oracle : Except String StripeSession) :
    StatusResponse × Option (Reservation × Payment) × Bool :=
  match lookup with
  | none => (StatusResponse.notFound, none, false)
  | some (res, pay, hasEmail) =>
    if res.status = ReservationStatus.CONFIRMED ∧
        pay.status = PaymentStatus.SUCCEEDED then
      (StatusResponse.report res.status pay.status false none, some (res, pay), false)
    else if res.status = ReservationStatus.HOLD ∧ isPendingPaymentStatus pay.status then
      match oracle with
      | Except.error msg =>
        (StatusResponse.report res.status pay.status false (some msg),
         some (res, pay), false)
      | Except.ok ss =>
        if ss.paymentStatus ≠ "paid" then
          (StatusResponse.report res.status pay.status false none,
           some (res, pay), false)
        else
          match ss.amountTotal, ss.currency with
          | none, _ =>
            (StatusResponse.report res.status pay.status false
              (some "Stripe session.amount_total is null"), some (res, pay), false)
          | _, none =>
            (StatusResponse.report res.status pay.status false
              (some "Stripe session.currency is null"), some (res, pay), false)
          | some amt, some cur =>
            if amt ≠ pay.amountCents ∨ strLower cur ≠ strLower pay.currency then
              (StatusResponse.report res.status pay.status false
                (some "Amount/currency mismatch"), some (res, pay), false)
            else
              let pay1 := { pay with status := PaymentStatus.SUCCEEDED,
                                     stripePaymentIntentId := ss.paymentIntentId }
              let res1 := { res with status := ReservationStatus.CONFIRMED,
                                     holdExpiresAt := none }
              (StatusResponse.report ReservationStatus.CONFIRMED
                PaymentStatus.SUCCEEDED true none, some (res1, pay1), hasEmail)
    else
      (StatusResponse.report res.status pay.status false none, some (res, pay), false)

/-! ### Hold expiry sweeper (`POST /api/admin/cleanup-holds`) -/

/-- The sweeper's WHERE clause: `status = HOLD AND holdExpiresAt < now`
(a null expiry never matches). -/
def isExpiredHold (now : Nat) (r : Reservation) : Bool :=
  r.status == ReservationStatus.HOLD &&
    (match r.holdExpiresAt with
     | some t => decide (t < now)
     | none => false)

/-- The ids of the reservations the sweeper's query returns:
`status = HOLD AND holdExpiresAt < now`. -/
def expiredIds (rs : List Reservation) (now : Nat) : List Nat :=
  (rs.filter (isExpiredHold now)).map (fun r => r.id)

/-- The sweep transaction: find the expired holds, bulk-transition them
to EXPIRED (clearing `holdExpiresAt`), and set their payments to
CANCELED only when still PENDING or REQUIRES_PAYMENT.  Returns the new
tables and the reported `expiredCount`. -/
def sweep (rs : List Reservation) (ps : List Payment) (now : Nat) :
    List Reservation × List Payment × Nat :=
  if (expiredIds rs now).isEmpty then (rs, ps, 0)
  else
    (rs.map (fun r =>
       if (expiredIds rs now).contains r.id
       then { r with status := ReservationStatus.EXPIRED, holdExpiresAt := none }
       else r),
     ps.map (fun p =>
       if (expiredIds rs now).contains p.reservationId &&
           (p.status == PaymentStatus.PENDING ||
             p.status == PaymentStatus.REQUIRES_PAYMENT)
       then { p with status := PaymentStatus.CANCELED }
       else p),
     (expiredIds rs now).length)

/-! ### Waitlist notifier (`POST /api/admin/waitlist/notify`) -/

/-- One fetched WAITING reservation as the notifier loop sees it:
`sendOk` is whether the external email send would succeed. -/
structure WaitEntry where
  id : Nat
  totalPax : Nat
  availabilityEmailSentAt : Option Nat
  hasEmail : Bool
  sendOk : Bool
deriving DecidableEq, Repr

/-- The notifier's inner loop over one session's WAITING reservations in
`createdAt` ascending order, with virtual pool `free`: skip a party that
does not fit the remaining pool, apply the conditional one-shot marker
update (skip if already set), skip (leaving the marker set) when the
customer has no email, roll the marker back on a failed send, and on a
successful send decrement the pool and stop at zero.  Returns the
entries with their final markers, the notified ids in order, the number
considered, and the remaining virtual pool. -/
def runNotify (now : Nat) : Nat → List WaitEntry →
    List WaitEntry × List Nat × Nat × Nat
  | free, [] => ([], [], 0, free)
  | free, e :: rest =>
    if free < e.totalPax then
      let out := runNotify now free rest
      (e :: out.1, out.2.1, out.2.2.1 + 1, out.2.2.2)
    else if e.availabilityEmailSentAt.isSome then
      let out := runNotify now free rest
      (e :: out.1, out.2.1, out.2.2.1 + 1, out.2.2.2)
    else if ¬ e.hasEmail then
      let out := runNotify now free rest
      ({ e with availabilityEmailSentAt := some now } :: out.1,
       out.2.1, out.2.2.1 + 1, out.2.2.2)
    else if ¬ e.sendOk then
      let out := runNotify now free rest
      (e :: out.1, out.2.1, out.2.2.1 + 1, out.2.2.2)
    else
      let marked := { e with availabilityEmailSentAt := some now }
      let free2 := free - e.totalPax
      if free2 = 0 then
        (marked :: rest, [e.id], 1, 0)
      else
        let out := runNotify now free2 rest
        (marked :: out.1, e.id :: out.2.1, out.2.2.1 + 1, out.2.2.2)

/-! ### Helper lemmas about the capacity ledger -/

/-- Unfolding `committedSeats` over a cons cell. -/
lemma committedSeats_cons (r : Reservation) (rs : List Reservation) (sid now : Nat) :
    committedSeats (r :: rs) sid now =
      (if r.sessionId = sid ∧ countsSeat now r then r.totalPax else 0) +
        committedSeats rs sid now := rfl

/-- `committedSeats` distributes over append. -/
lemma committedSeats_append (l1 l2 : List Reservation) (sid now : Nat) :
    committedSeats (l1 ++ l2) sid now =
      committedSeats l1 sid now + committedSeats l2 sid now := by
  induction l1 with
  | nil => simp [committedSeats]
  | cons r rest ih =>
    simp only [List.cons_append, committedSeats_cons, ih, Nat.add_assoc]

/-- A row that counts at a later instant counts at any earlier instant:
holds only leave the ledger as time advances. -/
lemma countsSeat_of_le {now t : Nat} (h : now ≤ t) (r : Reservation)
    (hc : countsSeat t r = true) : countsSeat now r = true := by
  unfold countsSeat liveHold at *
  rcases Bool.or_eq_true_iff.mp hc with h1 | h1
  · exact Bool.or_eq_true_iff.mpr (Or.inl h1)
  · refine Bool.or_eq_true_iff.mpr (Or.inr ?_)
    rcases Bool.and_eq_true_iff.mp h1 with ⟨hs, hexp⟩
    refine Bool.and_eq_true_iff.mpr ⟨hs, ?_⟩
    cases hx : r.holdExpiresAt with
    | none => rw [hx] at hexp; exact absurd hexp (by simp)
    | some e =>
      rw [hx] at hexp
      simp only [decide_eq_true_eq] at hexp ⊢
      exact Nat.lt_of_le_of_lt h hexp

/-- Committed seats are antitone in the time cutoff. -/
lemma committedSeats_anti (rs : List Reservation) (sid : Nat) {now t : Nat}
    (h : now ≤ t) : committedSeats rs sid t ≤ committedSeats rs sid now := by
  induction rs with
  | nil => simp [committedSeats]
  | cons r rest ih =>
    simp only [committedSeats_cons]
    refine Nat.add_le_add ?_ ih
    by_cases hc : r.sessionId = sid ∧ countsSeat t r
    · rw [if_pos hc, if_pos ⟨hc.1, countsSeat_of_le h r hc.2⟩]
    · rw [if_neg hc]
      exact Nat.zero_le _

/-- A WAITING row never counts toward committed seats. -/
lemma countsSeat_waiting {r : Reservation}
    (h : r.status = ReservationStatus.WAITING) (t : Nat) :
    countsSeat t r = false := by
  unfold countsSeat liveHold
  rw [h]
  rfl

/-- The single-row contribution inside `committedSeats` is at most the row's pax. -/
lemma contrib_le_pax (r : Reservation) (sid t : Nat) :
    (if r.sessionId = sid ∧ countsSeat t r then r.totalPax else 0) ≤ r.totalPax := by
  split <;> simp

/-- Appending one row changes `committedSeats` by that row's contribution. -/
lemma committedSeats_append_single (rs : List Reservation) (r : Reservation)
    (sid t : Nat) :
    committedSeats (rs ++ [r]) sid t =
      committedSeats rs sid t +
        (if r.sessionId = sid ∧ countsSeat t r then r.totalPax else 0) := by
  rw [committedSeats_append]
  simp [committedSeats]

/-- `find?` splits a list into a prefix of failures, the hit, and a tail. -/
lemma find?_split {α : Type} (p : α → Bool) (l : List α) (a : α)
    (h : l.find? p = some a) :
    ∃ l1 l2, l = l1 ++ a :: l2 ∧ ∀ b ∈ l1, p b = false := by
  induction l with
  | nil => simp [List.find?] at h
  | cons x rest ih =>
    by_cases hx : p x
    · refine ⟨[], rest, ?_, by simp⟩
      rw [List.find?_cons_of_pos _ hx] at h
      simp_all
    · rw [List.find?_cons_of_neg _ (by simpa using hx)] at h
      obtain ⟨l1, l2, heq, hfail⟩ := ih h
      refine ⟨x :: l1, l2, by simp [heq], ?_⟩
      intro b hb
      rcases List.mem_cons.mp hb with rfl | hb
      · simpa using hx
      · exact hfail b hb

/-- Mapping a function that fixes every row of a list leaves
`committedSeats` unchanged. -/
lemma committedSeats_map_fixed (rs : List Reservation) (f : Reservation → Reservation)
    (hfix : ∀ r ∈ rs, f r = r) (sid t : Nat) :
    committedSeats (rs.map f) sid t = committedSeats rs sid t := by
  induction rs with
  | nil => rfl
  | cons r rest ih =>
    simp only [List.map_cons, committedSeats_cons]
    rw [hfix r (List.mem_cons_self r rest),
      ih (fun x hx => hfix x (List.mem_cons_of_mem r hx))]

set_option maxHeartbeats 1600000 in
/-- Shape of the reservation table after the creation handler: unchanged,
extended by one WAITING row, or extended by one HOLD row for the session
found, inserted only after the capacity guard passed. -/
lemma createReservation_cases (db : DB) (req : CreateRequest) (now cid rid : Nat)
    (res : CreateResult) (db2 : DB)
    (hout : createReservation db req now cid rid = (res, db2)) :
    db2.sessions = db.sessions ∧
    (db2.reservations = db.reservations ∨
     (∃ w, db2.reservations = db.reservations ++ [w] ∧
        w.status = ReservationStatus.WAITING) ∨
     (∃ s r, db.sessions.find? (fun x => some x.id == req.sessionId) = some s ∧
        db2.reservations = db.reservations ++ [r] ∧
        r.sessionId = s.id ∧
        ¬ (freeSeats s db.reservations now < r.totalPax))) := by
  unfold createReservation at hout
  split at hout
  · cases hout; exact ⟨rfl, Or.inl rfl⟩
  split at hout
  · cases hout; exact ⟨rfl, Or.inl rfl⟩
  split at hout
  · cases hout; exact ⟨rfl, Or.inl rfl⟩
  split at hout
  · cases hout; exact ⟨rfl, Or.inl rfl⟩
  split at hout
  · cases hout; exact ⟨rfl, Or.inl rfl⟩
  split at hout
  · cases hout; exact ⟨rfl, Or.inl rfl⟩
  split at hout
  · cases hout; exact ⟨rfl, Or.inl rfl⟩
  split at hout
  · cases hout; exact ⟨rfl, Or.inr (Or.inl ⟨_, rfl, rfl⟩)⟩
  split at hout
  · cases hout; exact ⟨rfl, Or.inr (Or.inl ⟨_, rfl, rfl⟩)⟩
  split at hout
  · cases hout; exact ⟨rfl, Or.inr (Or.inl ⟨_, rfl, rfl⟩)⟩
  cases hout
  exact ⟨rfl, Or.inr (Or.inr ⟨_, _, by assumption, rfl, rfl, by assumption⟩)⟩

set_option maxHeartbeats 1600000 in
/-- Shape of the claim transaction's write set: unchanged reservations on
every failure path, or a promote-by-id map applied only after the status
and capacity guards passed. -/
lemma claimTx_cases (db : DB) (body : ClaimBody) (now : Nat)
    (out : ClaimTxResult × DB) (hout : claimTx db body now = some out) :
    out.2.sessions = db.sessions ∧
    (out.2.reservations = db.reservations ∨
     (∃ w s gid, db.reservations.find? (fun r => some r.id == body.waitingId) = some w ∧
        w.status = ReservationStatus.WAITING ∧
        db.sessions.find? (fun x => x.id == w.sessionId) = some s ∧
        ¬ (freeSeats s db.reservations now < w.totalPax) ∧
        out.2.reservations = db.reservations.map
          (promoteRow w.id (now + HOLD_DURATION_MS) gid body.tourLanguage))) := by
  unfold claimTx at hout
  split at hout
  · cases hout
  rename_i w hw
  split at hout
  · cases hout; exact ⟨rfl, Or.inl rfl⟩
  rename_i hwstat
  split at hout
  · cases hout
  rename_i s hs
  split at hout
  · cases hout; exact ⟨rfl, Or.inl rfl⟩
  split at hout
  · cases hout; exact ⟨rfl, Or.inl rfl⟩
  split at hout
  · cases hout; exact ⟨rfl, Or.inl rfl⟩
  rename_i hfree
  split at hout
  · cases hout; exact ⟨rfl, Or.inl rfl⟩
  rename_i gid hpick
  cases hout
  exact ⟨rfl, Or.inr ⟨w, s, gid, hw, not_not.mp hwstat, hs, hfree, rfl⟩⟩

/-- Mapping an update that touches only the unique row found by a
predicate keyed on ids, when that row never counted toward the ledger,
adds exactly the updated row's contribution. -/
lemma committedSeats_map_promote (rs : List Reservation) (p : Reservation → Bool)
    (w : Reservation) (hfind : rs.find? p = some w)
    (hp : ∀ r₁ r₂ : Reservation, r₁.id = r₂.id → p r₁ = p r₂)
    (hnd : (rs.map (fun r => r.id)).Nodup)
    (f : Reservation → Reservation) (hother : ∀ r, r.id ≠ w.id → f r = r)
    (hw0 : ∀ u : Nat, countsSeat u w = false) (sid t : Nat) :
    committedSeats (rs.map f) sid t =
      committedSeats rs sid t +
        (if (f w).sessionId = sid ∧ countsSeat t (f w) then (f w).totalPax else 0) := by
  have hpw : p w = true := List.find?_some hfind
  obtain ⟨l1, l2, heq, hfail⟩ := find?_split p rs w hfind
  subst heq
  have hl1 : ∀ b ∈ l1, f b = b := by
    intro b hb
    apply hother
    intro hid
    have hpb : p b = p w := hp b w hid
    rw [hfail b hb, hpw] at hpb
    exact Bool.false_ne_true hpb
  have hl2 : ∀ b ∈ l2, f b = b := by
    have hnd2 : ((w :: l2).map (fun r => r.id)).Nodup := by
      rw [List.map_append] at hnd
      exact hnd.of_append_right
    have hnotmem : w.id ∉ l2.map (fun r => r.id) := by
      rw [List.map_cons] at hnd2
      exact (List.nodup_cons.mp hnd2).1
    intro b hb
    apply hother
    intro hid
    exact hnotmem (hid ▸ List.mem_map_of_mem (fun r => r.id) hb)
  have hcw : (if w.sessionId = sid ∧ countsSeat t w then w.totalPax else 0) = 0 := by
    rw [if_neg]
    intro hcon
    rw [hw0 t] at hcon
    exact Bool.false_ne_true hcon.2
  rw [List.map_append, List.map_cons, committedSeats_append, committedSeats_cons,
    committedSeats_append, committedSeats_cons,
    committedSeats_map_fixed l1 f hl1, committedSeats_map_fixed l2 f hl2, hcw]
  ring

/-- A guarded contribution is bounded by any bound on its value. -/
lemma ite_contrib_le {c : Prop} [Decidable c] {n m : Nat} (h : n ≤ m) :
    (if c then n else 0) ≤ m := by
  split
  · exact h
  · exact Nat.zero_le m

/-- C1: the per-session capacity invariant `committedSeats ≤ maxSeatsTotal`
is preserved, at the decision instant and at every later instant, by both
seat-granting operations: reservation creation and the waitlist claim.
Both grant a HOLD only after re-reading the ledger and checking
`freeSeats` against the party's pax inside the same transaction. -/
theorem capacity_invariant_preserved
    (db : DB) (now t : Nat) (ht : now ≤ t)
    (hsid : (db.sessions.map (fun s => s.id)).Nodup)
    (hrid : (db.reservations.map (fun r => r.id)).Nodup)
    (hInv : ∀ s ∈ db.sessions,
      committedSeats db.reservations s.id now ≤ s.maxSeatsTotal) :
    (∀ req cid rid res db2, createReservation db req now cid rid = (res, db2) →
       ∀ s ∈ db.sessions,
         committedSeats db2.reservations s.id t ≤ s.maxSeatsTotal) ∧
    (∀ body out, claimTx db body now = some out →
       ∀ s ∈ db.sessions,
         committedSeats out.2.reservations s.id t ≤ s.maxSeatsTotal) := by
  constructor
  · intro req cid rid res db2 hout s' hs'
    have base : committedSeats db.reservations s'.id t ≤ s'.maxSeatsTotal :=
      le_trans (committedSeats_anti db.reservations s'.id ht) (hInv s' hs')
    obtain ⟨-, hcase⟩ := createReservation_cases db req now cid rid res db2 hout
    rcases hcase with h | ⟨w, h, hw⟩ | ⟨s, r, hfind, h, hrs, hguard⟩
    · rw [h]; exact base
    · rw [h, committedSeats_append_single]
      have : (if w.sessionId = s'.id ∧ countsSeat t w then w.totalPax else 0) = 0 := by
        rw [if_neg]
        intro hcon
        rw [countsSeat_waiting hw t] at hcon
        exact Bool.false_ne_true hcon.2
      rw [this]
      simpa using base
    · rw [h, committedSeats_append_single]
      have hsmem : s ∈ db.sessions := List.mem_of_find?_eq_some hfind
      by_cases hids : s'.id = s.id
      · have hss : s' = s := List.inj_on_of_nodup_map hsid hs' hsmem hids
        subst hss
        have h1 : committedSeats db.reservations s'.id t ≤
            committedSeats db.reservations s'.id now :=
          committedSeats_anti db.reservations s'.id ht
        have h2 : committedSeats db.reservations s'.id now ≤ s'.maxSeatsTotal :=
          hInv s' hs'
        have h3 : r.totalPax ≤
            s'.maxSeatsTotal - committedSeats db.reservations s'.id now := by
          unfold freeSeats at hguard
          omega
        have h4 := contrib_le_pax r s'.id t
        omega
      · have : (if r.sessionId = s'.id ∧ countsSeat t r then r.totalPax else 0) = 0 := by
        -- placeholder
          rw [if_neg]
          intro hcon
          exact hids (hrs ▸ hcon.1.symm)
        rw [this]
        simpa using base
  · intro body out hout s' hs'
    have base : committedSeats db.reservations s'.id t ≤ s'.maxSeatsTotal :=
      le_trans (committedSeats_anti db.reservations s'.id ht) (hInv s' hs')
    obtain ⟨-, hcase⟩ := claimTx_cases db body now out hout
    rcases hcase with h | ⟨w, s, gid, hfindw, hwstat, hfinds, hguard, h⟩
    · rw [h]; exact base
    · have hsmem : s ∈ db.sessions := List.mem_of_find?_eq_some hfinds
      have hsid_eq : s.id = w.sessionId := by
        simpa using List.find?_some hfinds
      have hfw_sess :
          (promoteRow w.id (now + HOLD_DURATION_MS) gid body.tourLanguage w).sessionId =
            w.sessionId := by
        simp [promoteRow]
      have hfw_pax :
          (promoteRow w.id (now + HOLD_DURATION_MS) gid body.tourLanguage w).totalPax =
            w.totalPax := by
        simp [promoteRow]
      have hother : ∀ r : Reservation, r.id ≠ w.id →
          promoteRow w.id (now + HOLD_DURATION_MS) gid body.tourLanguage r = r := by
        intro r hr
        unfold promoteRow
        rw [if_neg]
        simpa using fun hx => hr hx
      have hp : ∀ r₁ r₂ : Reservation, r₁.id = r₂.id →
          (fun r : Reservation => some r.id == body.waitingId) r₁ =
            (fun r : Reservation => some r.id == body.waitingId) r₂ := by
        intro r₁ r₂ hid
        simp [hid]
      have hmap := committedSeats_map_promote db.reservations
        (fun r => some r.id == body.waitingId) w hfindw hp hrid
        (promoteRow w.id (now + HOLD_DURATION_MS) gid body.tourLanguage) hother
        (fun u => countsSeat_waiting hwstat u) s'.id t
      rw [h, hmap]
      by_cases hids : s'.id = s.id
      · have hss : s' = s := List.inj_on_of_nodup_map hsid hs' hsmem hids
        subst hss
        have h1 : committedSeats db.reservations s'.id t ≤
            committedSeats db.reservations s'.id now :=
          committedSeats_anti db.reservations s'.id ht
        have h2 : committedSeats db.reservations s'.id now ≤ s'.maxSeatsTotal :=
          hInv s' hs'
        have h3 : w.totalPax ≤
            s'.maxSeatsTotal - committedSeats db.reservations s'.id now := by
          unfold freeSeats at hguard
          omega
        refine le_trans
          (Nat.add_le_add_left (ite_contrib_le (le_of_eq hfw_pax)) _) ?_
        omega
      · have hC : ¬ ((promoteRow w.id (now + HOLD_DURATION_MS) gid
              body.tourLanguage w).sessionId = s'.id ∧
            countsSeat t (promoteRow w.id (now + HOLD_DURATION_MS) gid
              body.tourLanguage w) = true) := by
          rw [hfw_sess]
          intro hcon
          exact hids (by rw [hsid_eq, hcon.1])
        rw [if_neg hC]
        simpa using base

/-! ### Guide assignment: least-loaded characterization (C2) -/

instance : IsTotal (Nat × Nat) (fun a b => a.2 ≤ b.2) :=
  ⟨fun a b => Nat.le_total a.2 b.2⟩

instance : IsTrans (Nat × Nat) (fun a b => a.2 ≤ b.2) :=
  ⟨fun _ _ _ hab hbc => Nat.le_trans hab hbc⟩

/-- On a list sorted ascending by load, the first fitting element is a
fitting element of minimal load. -/
lemma find?_fit_sorted (pax maxPer : Nat) (l : List (Nat × Nat))
    (hsort : l.Pairwise (fun a b : Nat × Nat => a.2 ≤ b.2)) (g : Nat × Nat)
    (hfind : l.find? (fun x => decide (x.2 + pax ≤ maxPer)) = some g) :
    g ∈ l ∧ g.2 + pax ≤ maxPer ∧ ∀ x ∈ l, g.2 ≤ x.2 := by
  induction l with
  | nil => simp [List.find?] at hfind
  | cons h rest ih =>
    by_cases hfit : h.2 + pax ≤ maxPer
    · rw [List.find?_cons_of_pos _ (by simpa using hfit)] at hfind
      injection hfind with hfind2
      subst hfind2
      refine ⟨List.mem_cons_self _ _, hfit, ?_⟩
      intro x hx
      rcases List.mem_cons.mp hx with rfl | hx
      · exact Nat.le_refl _
      · exact (List.pairwise_cons.mp hsort).1 x hx
    · rw [List.find?_cons_of_neg _ (by simpa using hfit)] at hfind
      obtain ⟨hmem, hgfit, hmin⟩ := ih (List.pairwise_cons.mp hsort).2 hfind
      exact absurd
        (Nat.le_trans (Nat.add_le_add_right
          ((List.pairwise_cons.mp hsort).1 g hmem) pax) hgfit) hfit

/-- C2: guide assignment.  `pickLeastLoaded` returns a candidate of
minimal ledger load among the pool that still fits `load + partySize ≤
maxPerGuide`, and returns `none` exactly when no candidate fits; the
two-tier `pickGuide` first tries the preferred (non-base browser
language) pool and falls back to the full pool; and both callers treat
`none` as no capacity — the creation handler files the party as WAITING
and the claim transaction answers the NO-GUIDE business failure (409),
not a thrown error. -/
theorem guide_assignment_correct :
    (∀ rs s now pax ids gid, pickLeastLoaded rs s now pax ids = some gid →
       gid ∈ ids ∧ guideLoad rs s.id gid now + pax ≤ s.maxPerGuide ∧
       ∀ g' ∈ ids, guideLoad rs s.id gid now ≤ guideLoad rs s.id g' now) ∧
    (∀ rs s now pax ids, pickLeastLoaded rs s now pax ids = none ↔
       ∀ g' ∈ ids, s.maxPerGuide < guideLoad rs s.id g' now + pax) ∧
    (∀ rs s now pax cands bl gid,
       pickLeastLoaded rs s now pax
         ((preferredGuides cands bl).map (fun g => g.id)) = some gid →
       pickGuide rs s now pax cands bl = some gid) ∧
    (∀ rs s now pax cands bl,
       pickLeastLoaded rs s now pax
         ((preferredGuides cands bl).map (fun g => g.id)) = none →
       pickGuide rs s now pax cands bl =
         pickLeastLoaded rs s now pax (cands.map (fun g => g.id))) ∧
    (∀ db req now cid rid s,
       (req.sessionId.isNone || req.customerName.isNone ||
         req.customerEmail.isNone || req.tourLanguage.isNone) = false →
       ¬ (req.adultsCount < 1) → ¬ (req.minorsCount < 0) →
       db.sessions.find? (fun x => some x.id == req.sessionId) = some s →
       s.isCancelled = false → ¬ (s.bookingClosesAt < now) →
       db.reservations.any (fun r => r.sessionId == s.id &&
         r.customerId == (upC db req cid).1) = false →
       ¬ (freeSeats s db.reservations now <
           req.adultsCount.toNat + req.minorsCount.toNat) →
       (db.guides.filter (fun g => g.isActive)).isEmpty = false →
       pickGuide db.reservations s now
         (req.adultsCount.toNat + req.minorsCount.toNat)
         (db.guides.filter (fun g => g.isActive)) req.browserLanguage = none →
       (createReservation db req now cid rid).1 = CreateResult.waiting rid) ∧
    (∀ db body now w s,
       db.reservations.find? (fun r => some r.id == body.waitingId) = some w →
       w.status = ReservationStatus.WAITING →
       db.sessions.find? (fun x => x.id == w.sessionId) = some s →
       s.isCancelled = false → ¬ (s.bookingClosesAt < now) →
       ¬ (freeSeats s db.reservations now < w.totalPax) →
       pickGuide db.reservations s now w.totalPax
         (db.guides.filter (fun g => g.isActive)) w.browserLanguage = none →
       claimTx db body now = some
         (ClaimTxResult.failed 409 "No guide available right now",
          { db with customers := claimCustomerUpdate db.customers body w })) := by
  refine ⟨?_, ?_, ?_, ?_, ?_, ?_⟩
  · intro rs s now pax ids gid hpick
    unfold pickLeastLoaded at hpick
    split at hpick
    · cases hpick
    rcases hfind : (List.insertionSort (fun a b : Nat × Nat => a.2 ≤ b.2)
        (ids.map (fun gid => (gid, guideLoad rs s.id gid now)))).find?
        (fun g => decide (g.2 + pax ≤ s.maxPerGuide)) with _ | g
    · rw [hfind] at hpick
      simp at hpick
    · rw [hfind] at hpick
      simp only [Option.map_some'] at hpick
      cases hpick
      obtain ⟨hmem, hfit, hmin⟩ := find?_fit_sorted pax s.maxPerGuide _
        (List.sorted_insertionSort _ _) g hfind
      have hmem2 := (List.perm_insertionSort
        (fun a b : Nat × Nat => a.2 ≤ b.2) _).mem_iff.mp hmem
      obtain ⟨gid0, hgid0, hpair⟩ := List.mem_map.mp hmem2
      have hg1 : g.1 = gid0 := by rw [← hpair]
      have hg2 : g.2 = guideLoad rs s.id gid0 now := by rw [← hpair]
      rw [hg1]
      refine ⟨hgid0, ?_, ?_⟩
      · rw [← hg2]
        exact hfit
      · intro g' hg'
        have hmem' : (g', guideLoad rs s.id g' now) ∈
            List.insertionSort (fun a b : Nat × Nat => a.2 ≤ b.2)
              (ids.map (fun gid => (gid, guideLoad rs s.id gid now))) :=
          (List.perm_insertionSort _ _).mem_iff.mpr
            (List.mem_map_of_mem _ hg')
        have hx := hmin _ hmem'
        have hgid0load : guideLoad rs s.id gid0 now = g.2 := hg2.symm
        rw [← hgid0load] at hx
        exact hx
  · intro rs s now pax ids
    constructor
    · intro hnone g' hg'
      unfold pickLeastLoaded at hnone
      split at hnone
      · rename_i hemp
        exact absurd (List.isEmpty_iff.mp hemp ▸ hg') (List.not_mem_nil g')
      · rcases hfind : (List.insertionSort (fun a b : Nat × Nat => a.2 ≤ b.2)
            (ids.map (fun gid => (gid, guideLoad rs s.id gid now)))).find?
            (fun g => decide (g.2 + pax ≤ s.maxPerGuide)) with _ | g
        · have hall := List.find?_eq_none.mp hfind
          have hmem' : (g', guideLoad rs s.id g' now) ∈
              List.insertionSort (fun a b : Nat × Nat => a.2 ≤ b.2)
                (ids.map (fun gid => (gid, guideLoad rs s.id gid now))) :=
            (List.perm_insertionSort _ _).mem_iff.mpr
              (List.mem_map_of_mem _ hg')
          have hz := hall _ hmem'
          simpa using Nat.lt_of_not_le (by simpa using hz)
        · rw [hfind] at hnone
          simp at hnone
    · intro hall
      unfold pickLeastLoaded
      split
      · rfl
      rcases hfind : (List.insertionSort (fun a b : Nat × Nat => a.2 ≤ b.2)
          (ids.map (fun gid => (gid, guideLoad rs s.id gid now)))).find?
          (fun g => decide (g.2 + pax ≤ s.maxPerGuide)) with _ | g
      · rw [hfind]
        rfl
      · exfalso
        obtain ⟨hmem, hfit, -⟩ := find?_fit_sorted pax s.maxPerGuide _
          (List.sorted_insertionSort _ _) g hfind
        have hmem2 := (List.perm_insertionSort
          (fun a b : Nat × Nat => a.2 ≤ b.2) _).mem_iff.mp hmem
        obtain ⟨gid0, hgid0, hpair⟩ := List.mem_map.mp hmem2
        have hg2 : g.2 = guideLoad rs s.id gid0 now := by rw [← hpair]
        exact Nat.lt_irrefl _ (Nat.lt_of_lt_of_le
          (Nat.lt_of_lt_of_le (hall gid0 hgid0) (by rw [hg2])) hfit)
  · intro rs s now pax cands bl gid hpick
    unfold pickGuide
    rw [hpick]
  · intro rs s now pax cands bl hnone
    unfold pickGuide
    rw [hnone]
  · intro db req now cid rid s hval had hmin hfind hcan hclo hdup hfree hne hpick
    simp [createReservation, hval, had, hmin, hfind, hcan, hclo, hdup, hfree,
      hne, hpick]
  · intro db body now w s hfindw hw hfinds hcan hclo hfree hpick
    simp [claimTx, hfindw, hw, hfinds, hcan, hclo, hfree, hpick]

/-! ### Concrete fixtures used by the witnesses and counterexamples -/

/-- A five-seat session, four seats per guide, open for booking until
t = 1000000, priced 5000/2500 cents in EUR. -/
def fxSession : Session :=
  { id := 1, maxSeatsTotal := 5, maxPerGuide := 4, startAt := 2000000,
    bookingClosesAt := 1000000, adultPriceCents := 5000, minorPriceCents := 2500,
    currency := "eur", requiresPayment := true, isCancelled := false }

/-- One active guide speaking the base languages. -/
def fxGuide : Guide :=
  { id := 10, isActive := true,
    languages := [LanguageCode.CA, LanguageCode.ES, LanguageCode.EN] }

/-- An empty store holding that session and guide. -/
def fxDb : DB :=
  { sessions := [fxSession], customers := [], reservations := [], payments := [],
    guides := [fxGuide] }

/-- A valid creation request for two adults and one minor. -/
def fxReq : CreateRequest :=
  { sessionId := some 1, customerName := some "Ana", customerEmail := some 7,
    customerPhone := none, tourLanguage := some LanguageCode.ES,
    adultsCount := 2, minorsCount := 1, browserLanguage := none }

/-- A HOLD reservation awaiting payment. -/
def fxHoldRes : Reservation :=
  { id := 30, sessionId := 1, customerId := 20, guideUserId := some 10,
    status := ReservationStatus.HOLD, holdExpiresAt := some 960100,
    adultsCount := 2, minorsCount := 1, totalPax := 3,
    tourLanguage := some LanguageCode.ES, browserLanguage := none,
    createdAt := 100, createdEmailSentAt := none, confirmedEmailSentAt := none,
    availabilityEmailSentAt := none }

/-- Its pending payment of 5000 cents EUR. -/
def fxPayment : Payment :=
  { reservationId := 30, status := PaymentStatus.REQUIRES_PAYMENT,
    amountCents := 5000, currency := "eur",
    stripeCheckoutSessionId := some "cs_1", stripePaymentIntentId := none }

/-- A Stripe checkout session reporting the correct amount. -/
def fxStripeOk : StripeSession :=
  { id := "cs_1", paymentStatus := "paid", amountTotal := some 5000,
    currency := some "eur", paymentIntentId := some "pi_1" }

/-- A Stripe checkout session reporting 4000 instead of 5000. -/
def fxStripeBad : StripeSession :=
  { id := "cs_1", paymentStatus := "paid", amountTotal := some 4000,
    currency := some "eur", paymentIntentId := some "pi_1" }

/-- A well-formed claim body. -/
def fxClaimBody : ClaimBody :=
  { waitingId := some 1, customerName := some "Ana", customerPhone := none,
    tourLanguage := some LanguageCode.ES }

/-- A transaction-attempt oracle whose first attempt raises a
serialization conflict and whose second attempt succeeds. -/
def fxAttempts : Nat → Except TxError (ClaimTxResult × DB) :=
  fun n => if n = 0 then Except.error TxError.serializationConflict
           else Except.ok (ClaimTxResult.claimed 1 960100, fxDb)

/-! ### C3: the claim route's concurrency-control shape -/

/-- C3 (counterexample): the claim route surfaces the very first
serialization conflict as HTTP 500; with the spec's bounded retry the
same attempt sequence would have succeeded on the second attempt, so the
route demonstrably performs no retry. -/
theorem claim_retry_counterexample :
    claimPost fxClaimBody fxAttempts = ClaimResponse.err 500 "serialization conflict" ∧
    specClaimWithRetry fxClaimBody fxAttempts 3 = ClaimResponse.ok 1 960100 ∧
    claimPost fxClaimBody fxAttempts ≠ specClaimWithRetry fxClaimBody fxAttempts 3 := by
  refine ⟨rfl, rfl, ?_⟩
  intro h
  rw [show specClaimWithRetry fxClaimBody fxAttempts 3 = ClaimResponse.ok 1 960100
    from rfl] at h
  cases h

/-- C3 (amended): the claim transaction re-validates WAITING status,
session openness, capacity and guide inside one transaction; a
non-WAITING reservation is answered with the explicit 400 business error
and no write; and the HTTP wrapper runs the transaction exactly once —
its response depends only on attempt 0, and a serialization conflict on
that single attempt is surfaced immediately as HTTP 500 with no retry. -/
theorem claim_single_attempt_fails_closed :
    (∀ body a1 a2, a1 0 = a2 0 → claimPost body a1 = claimPost body a2) ∧
    (∀ body attempts, body.waitingId.isNone = false →
       body.customerName.isNone = false → body.tourLanguage.isNone = false →
       attempts 0 = Except.error TxError.serializationConflict →
       claimPost body attempts = ClaimResponse.err 500 "serialization conflict") ∧
    (∀ db body now w,
       db.reservations.find? (fun r => some r.id == body.waitingId) = some w →
       w.status ≠ ReservationStatus.WAITING →
       claimTx db body now =
         some (ClaimTxResult.failed 400 "Reservation is not WAITING", db)) := by
  refine ⟨?_, ?_, ?_⟩
  · intro body a1 a2 h
    unfold claimPost
    rw [h]
  · intro body attempts hb1 hb2 hb3 hatt
    unfold claimPost
    rw [if_neg (by simp [hb1, hb2, hb3]), hatt]
  · intro db body now w hfind hw
    simp [claimTx, hfind, hw]

/-- Witness for C3's amended theorem at a concrete state: a HOLD (not
WAITING) reservation is rejected with the 400 business error and the
store is unchanged, and a first-attempt conflict yields the 500. -/
theorem claim_single_attempt_witness :
    claimPost fxClaimBody fxAttempts = ClaimResponse.err 500 "serialization conflict" ∧
    claimTx { fxDb with reservations := [fxHoldRes] }
        { fxClaimBody with waitingId := some 30 } 100 =
      some (ClaimTxResult.failed 400 "Reservation is not WAITING",
        { fxDb with reservations := [fxHoldRes] }) :=
  ⟨(claim_single_attempt_fails_closed).2.1 fxClaimBody fxAttempts
      (by decide) (by decide) (by decide) rfl,
   (claim_single_attempt_fails_closed).2.2
      { fxDb with reservations := [fxHoldRes] }
      { fxClaimBody with waitingId := some 30 } 100 fxHoldRes
      (by decide) (by decide)⟩

/-! ### C4: amount/currency verification before confirming -/

/-- C4 (counterexample): on an amount mismatch (oracle says 4000, the
Payment row says 5000) the status-poll pull path leaves the reservation
HOLD and the payment untouched and reports the failure in the body of an
HTTP **200** response — not the HTTP 500 the claim requires of both
paths. -/
theorem mismatch_pull_http200_counterexample :
    statusGet (some (fxHoldRes, fxPayment, true)) (Except.ok fxStripeBad) =
      (StatusResponse.report ReservationStatus.HOLD PaymentStatus.REQUIRES_PAYMENT
        false (some "Amount/currency mismatch"), some (fxHoldRes, fxPayment), false) ∧
    statusHttpStatus
      (statusGet (some (fxHoldRes, fxPayment, true)) (Except.ok fxStripeBad)).1 = 200 ∧
    statusHttpStatus
      (statusGet (some (fxHoldRes, fxPayment, true)) (Except.ok fxStripeBad)).1 ≠ 500 := by
  refine ⟨by decide, rfl, by decide⟩

/-- C4 (amended): both reconciliation paths verify `amount_total` and the
currency (case-insensitively) against the Payment row before confirming,
and on a mismatch neither path confirms — the rows are returned
unchanged, the reservation still HOLD.  The webhook path surfaces the
mismatch as HTTP 500; the status-poll path catches it and answers
HTTP 200 with the message in a `reconcileError` field. -/
theorem amount_mismatch_fails_closed
    (ss : StripeSession) (res : Reservation) (pay : Payment)
    (hasEmail : Bool) (now : Nat) (amt : Int) (cur : String)
    (hpaid : ss.paymentStatus = "paid")
    (hres : res.status = ReservationStatus.HOLD)
    (hamt : ss.amountTotal = some amt) (hcur : ss.currency = some cur)
    (hmm : amt ≠ pay.amountCents ∨ strLower cur ≠ strLower pay.currency) :
    webhookCompleted ss (some (res, pay)) now =
      (WebhookOutcome.serverError "Amount/currency mismatch", some (res, pay), false) ∧
    webhookHttpStatus (webhookCompleted ss (some (res, pay)) now).1 = 500 ∧
    (isPendingPaymentStatus pay.status = true →
      statusGet (some (res, pay, hasEmail)) (Except.ok ss) =
        (StatusResponse.report res.status pay.status false
          (some "Amount/currency mismatch"), some (res, pay), false) ∧
      statusHttpStatus (statusGet (some (res, pay, hasEmail)) (Except.ok ss)).1 = 200) := by
  have hnc : ¬ (res.status = ReservationStatus.CONFIRMED ∧
      pay.status = PaymentStatus.SUCCEEDED) := by
    rw [hres]
    rintro ⟨h1, -⟩
    cases h1
  have hwh : webhookCompleted ss (some (res, pay)) now =
      (WebhookOutcome.serverError "Amount/currency mismatch", some (res, pay), false) := by
    unfold webhookCompleted
    rw [if_neg (by simp [hpaid])]
    dsimp only
    rw [if_neg hnc, if_neg (by simp [hres]), hamt, hcur]
    dsimp only
    rw [if_pos hmm]
  refine ⟨hwh, by rw [hwh]; rfl, ?_⟩
  intro hpend
  have hst : statusGet (some (res, pay, hasEmail)) (Except.ok ss) =
      (StatusResponse.report res.status pay.status false
        (some "Amount/currency mismatch"), some (res, pay), false) := by
    simp only [statusGet]
    rw [if_neg hnc, if_pos ⟨hres, hpend⟩]
    rw [if_neg (by simp [hpaid]), hamt, hcur]
    dsimp only
    rw [if_pos hmm]
  exact ⟨hst, by rw [hst]; rfl⟩

/-- Witness for C4's amended theorem: the fixture mismatch state hits the
500 on the webhook path and the 200-with-`reconcileError` on the pull
path, with the rows unchanged on both. -/
theorem amount_mismatch_fails_closed_witness :
    webhookCompleted fxStripeBad (some (fxHoldRes, fxPayment)) 500 =
      (WebhookOutcome.serverError "Amount/currency mismatch",
       some (fxHoldRes, fxPayment), false) ∧
    statusGet (some (fxHoldRes, fxPayment, true)) (Except.ok fxStripeBad) =
      (StatusResponse.report fxHoldRes.status fxPayment.status false
        (some "Amount/currency mismatch"), some (fxHoldRes, fxPayment), false) := by
  have h := amount_mismatch_fails_closed fxStripeBad fxHoldRes fxPayment true 500
    4000 "eur" rfl rfl rfl rfl (Or.inl (by decide))
  exact ⟨h.1, (h.2.2 (by decide)).1⟩

/-! ### C5: source-state verification before any reconciliation write -/

/-- C5: every reconciliation entry point verifies the source state and
fails closed.  The webhook confirm is an idempotent no-op when the
reservation is already CONFIRMED with a SUCCEEDED payment, a no-op
`ignored` answer for every non-HOLD state (so EXPIRED or CANCELLED
reservations are never revived by a late event), and produces a
confirmed write only from HOLD; the checkout-expired event rewrites only
HOLD reservations and never touches one that is not HOLD (in particular
a CONFIRMED one); and the status-poll path leaves every non-HOLD
reservation unchanged. -/
theorem reconcile_source_state_guards :
    (∀ ss res pay now, ss.paymentStatus = "paid" →
       res.status = ReservationStatus.CONFIRMED →
       pay.status = PaymentStatus.SUCCEEDED →
       webhookCompleted ss (some (res, pay)) now =
         (WebhookOutcome.alreadyConfirmed, some (res, pay), false)) ∧
    (∀ ss res pay now, ss.paymentStatus = "paid" →
       res.status ≠ ReservationStatus.HOLD →
       ¬ (res.status = ReservationStatus.CONFIRMED ∧
           pay.status = PaymentStatus.SUCCEEDED) →
       webhookCompleted ss (some (res, pay)) now =
         (WebhookOutcome.ignored "reservation_not_hold", some (res, pay), false)) ∧
    (∀ ss lookup now res2 pay2 em,
       webhookCompleted ss lookup now =
         (WebhookOutcome.confirmed, some (res2, pay2), em) →
       ∃ res pay, lookup = some (res, pay) ∧
         res.status = ReservationStatus.HOLD) ∧
    (∀ res pay, res.status ≠ ReservationStatus.HOLD →
       webhookExpired (some (res, pay)) = some (res, pay)) ∧
    (∀ res pay, webhookExpired (some (res, pay)) ≠ some (res, pay) →
       res.status = ReservationStatus.HOLD) ∧
    (∀ res pay hasEmail oracle, res.status ≠ ReservationStatus.HOLD →
       statusGet (some (res, pay, hasEmail)) oracle =
         (StatusResponse.report res.status pay.status false none,
          some (res, pay), false)) := by
  refine ⟨?_, ?_, ?_, ?_, ?_, ?_⟩
  · intro ss res pay now hpaid hres hpay
    unfold webhookCompleted
    rw [if_neg (by simp [hpaid])]
    dsimp only
    rw [if_pos ⟨hres, hpay⟩]
  · intro ss res pay now hpaid hnh hnc
    unfold webhookCompleted
    rw [if_neg (by simp [hpaid])]
    dsimp only
    rw [if_neg hnc, if_pos hnh]
  · intro ss lookup now res2 pay2 em h
    unfold webhookCompleted at h
    split at h
    · exact absurd h (by simp)
    split at h
    · exact absurd h (by simp)
    rename_i res pay
    split at h
    · exact absurd h (by simp)
    split at h
    · exact absurd h (by simp)
    rename_i hnothold
    refine ⟨res, pay, rfl, not_not.mp hnothold⟩
  · intro res pay hnh
    simp only [webhookExpired]
    by_cases hcs : res.status = ReservationStatus.CONFIRMED ∧
        pay.status = PaymentStatus.SUCCEEDED
    · rw [if_pos hcs]
    · rw [if_neg hcs, if_neg hnh]
  · intro res pay h
    by_cases hh : res.status = ReservationStatus.HOLD
    · exact hh
    · exfalso
      apply h
      simp only [webhookExpired]
      by_cases hcs : res.status = ReservationStatus.CONFIRMED ∧
          pay.status = PaymentStatus.SUCCEEDED
      · rw [if_pos hcs]
      · rw [if_neg hcs, if_neg hh]
  · intro res pay hasEmail oracle hnh
    simp only [statusGet]
    by_cases hcs : res.status = ReservationStatus.CONFIRMED ∧
        pay.status = PaymentStatus.SUCCEEDED
    · rw [if_pos hcs]
    · rw [if_neg hcs, if_neg (fun hc => hnh hc.1)]

/-- The fixture reservation once confirmed. -/
def fxConfirmedRes : Reservation :=
  { fxHoldRes with status := ReservationStatus.CONFIRMED, holdExpiresAt := none }

/-- The fixture payment once succeeded. -/
def fxSucceededPayment : Payment :=
  { fxPayment with status := PaymentStatus.SUCCEEDED }

/-- The fixture reservation once expired. -/
def fxExpiredRes : Reservation :=
  { fxHoldRes with status := ReservationStatus.EXPIRED }

/-- Witness for C5 at concrete states: a CONFIRMED+SUCCEEDED reservation
is answered `alreadyConfirmed` unchanged; an EXPIRED reservation is not
revived by the completed event nor rewritten by the expired event; and
the status poll leaves an EXPIRED reservation untouched. -/
theorem reconcile_source_state_guards_witness :
    webhookCompleted fxStripeOk (some (fxConfirmedRes, fxSucceededPayment)) 500 =
      (WebhookOutcome.alreadyConfirmed,
       some (fxConfirmedRes, fxSucceededPayment), false) ∧
    webhookCompleted fxStripeOk (some (fxExpiredRes, fxPayment)) 500 =
      (WebhookOutcome.ignored "reservation_not_hold",
       some (fxExpiredRes, fxPayment), false) ∧
    webhookExpired (some (fxExpiredRes, fxPayment)) =
      some (fxExpiredRes, fxPayment) ∧
    statusGet (some (fxExpiredRes, fxPayment, true)) (Except.ok fxStripeOk) =
      (StatusResponse.report ReservationStatus.EXPIRED
        PaymentStatus.REQUIRES_PAYMENT false none,
       some (fxExpiredRes, fxPayment), false) :=
  ⟨(reconcile_source_state_guards).1 fxStripeOk fxConfirmedRes fxSucceededPayment
      500 rfl rfl rfl,
   (reconcile_source_state_guards).2.1 fxStripeOk fxExpiredRes fxPayment 500
      rfl (by decide) (by decide),
   (reconcile_source_state_guards).2.2.2.1 fxExpiredRes fxPayment (by decide),
   (reconcile_source_state_guards).2.2.2.2.2 fxExpiredRes fxPayment true
      (Except.ok fxStripeOk) (by decide)⟩

/-! ### C6: initial state chosen at creation time -/

set_option maxHeartbeats 1600000 in
/-- C6: the initial state of a reservation is chosen at creation time.
When the party fits in free seats and a guide is assignable the handler
answers HOLD and appends a HOLD row whose `holdExpiresAt` is exactly
`now + HOLD_DURATION_MS` (the configured window) with a guide assigned;
a WAITING answer appends a row with no guide and no hold timer; and under
the passing guards (valid request, open session, no duplicate, capacity,
guide found) the answer is exactly HOLD with that expiry. -/
theorem initial_state_choice (db : DB) (req : CreateRequest) (now cid rid : Nat)
    (res : CreateResult) (db2 : DB)
    (hout : createReservation db req now cid rid = (res, db2)) :
    (∀ rid2 hexp, res = CreateResult.hold rid2 hexp →
       rid2 = rid ∧ hexp = now + HOLD_DURATION_MS ∧
       ∃ s gid,
         db.sessions.find? (fun x => some x.id == req.sessionId) = some s ∧
         ¬ (freeSeats s db.reservations now <
             req.adultsCount.toNat + req.minorsCount.toNat) ∧
         pickGuide db.reservations s now
           (req.adultsCount.toNat + req.minorsCount.toNat)
           (db.guides.filter (fun g => g.isActive)) req.browserLanguage = some gid ∧
         db2.reservations = db.reservations ++
           [mkHoldRow rid s (upC db req cid).1 gid req now
             req.adultsCount.toNat req.minorsCount.toNat]) ∧
    (∀ rid2, res = CreateResult.waiting rid2 →
       ∃ w, db2.reservations = db.reservations ++ [w] ∧
         w.status = ReservationStatus.WAITING ∧ w.guideUserId = none ∧
         w.holdExpiresAt = none) ∧
    (∀ s gid,
       (req.sessionId.isNone || req.customerName.isNone ||
         req.customerEmail.isNone || req.tourLanguage.isNone) = false →
       ¬ (req.adultsCount < 1) → ¬ (req.minorsCount < 0) →
       db.sessions.find? (fun x => some x.id == req.sessionId) = some s →
       s.isCancelled = false → ¬ (s.bookingClosesAt < now) →
       db.reservations.any (fun r => r.sessionId == s.id &&
         r.customerId == (upC db req cid).1) = false →
       ¬ (freeSeats s db.reservations now <
           req.adultsCount.toNat + req.minorsCount.toNat) →
       (db.guides.filter (fun g => g.isActive)).isEmpty = false →
       pickGuide db.reservations s now
         (req.adultsCount.toNat + req.minorsCount.toNat)
         (db.guides.filter (fun g => g.isActive)) req.browserLanguage = some gid →
       res = CreateResult.hold rid (now + HOLD_DURATION_MS)) := by
  refine ⟨?_, ?_, ?_⟩
  · intro rid2 hexp hres
    subst hres
    unfold createReservation at hout
    split at hout
    · cases hout
    split at hout
    · cases hout
    split at hout
    · cases hout
    split at hout
    · cases hout
    rename_i s hs
    split at hout
    · cases hout
    split at hout
    · cases hout
    split at hout
    · cases hout
    split at hout
    · cases hout
    split at hout
    · cases hout
    split at hout
    · cases hout
    rename_i gid hpick
    rw [Prod.mk.injEq] at hout
    obtain ⟨hres2, hdb2⟩ := hout
    injection hres2 with h1 h2
    subst h1
    subst h2
    subst hdb2
    exact ⟨rfl, rfl, s, gid, hs, by assumption, hpick, rfl⟩
  · intro rid2 hres
    subst hres
    unfold createReservation at hout
    split at hout
    · cases hout
    split at hout
    · cases hout
    split at hout
    · cases hout
    split at hout
    · cases hout
    rename_i s hs
    split at hout
    · cases hout
    split at hout
    · cases hout
    split at hout
    · cases hout
    split at hout
    · rw [Prod.mk.injEq] at hout
      obtain ⟨-, hdb2⟩ := hout
      subst hdb2
      exact ⟨_, rfl, rfl, rfl, rfl⟩
    split at hout
    · rw [Prod.mk.injEq] at hout
      obtain ⟨-, hdb2⟩ := hout
      subst hdb2
      exact ⟨_, rfl, rfl, rfl, rfl⟩
    split at hout
    · rw [Prod.mk.injEq] at hout
      obtain ⟨-, hdb2⟩ := hout
      subst hdb2
      exact ⟨_, rfl, rfl, rfl, rfl⟩
    cases hout
  · intro s gid hval had hmin hfind hcan hclo hdup hfree hne hpick
    have hcomp : (createReservation db req now cid rid).1 =
        CreateResult.hold rid (now + HOLD_DURATION_MS) := by
      simp [createReservation, hval, had, hmin, hfind, hcan, hclo, hdup,
        hfree, hne, hpick]
    rw [hout] at hcomp
    exact hcomp

/-- Witness for C6: the fixture request on the empty fixture store is
answered HOLD with expiry exactly `100 + HOLD_DURATION_MS = 960100`, and
the same request on a store whose five seats are already committed is
answered WAITING with no guide and no timer. -/
theorem initial_state_choice_witness :
    (createReservation fxDb fxReq 100 20 30).1 =
      CreateResult.hold 30 (100 + HOLD_DURATION_MS) ∧
    (∃ w, (createReservation
        { fxDb with reservations := [{ fxHoldRes with totalPax := 5 }] }
        fxReq 100 21 31).2.reservations =
        { fxDb with reservations := [{ fxHoldRes with totalPax := 5 }] }.reservations
          ++ [w] ∧
      w.status = ReservationStatus.WAITING ∧ w.guideUserId = none ∧
      w.holdExpiresAt = none) := by
  constructor
  · exact (initial_state_choice fxDb fxReq 100 20 30 _ _ rfl).2.2 fxSession 10
      (by decide) (by decide) (by decide) (by decide) (by decide) (by decide)
      (by decide) (by decide) (by decide) (by decide)
  · exact (initial_state_choice
      { fxDb with reservations := [{ fxHoldRes with totalPax := 5 }] }
      fxReq 100 21 31 _ _ rfl).2.1 31 (by decide)

/-! ### Witnesses for C1 and C2 -/

/-- Witness for C1: creating the fixture party of 3 in the empty
five-seat fixture session keeps committed seats within capacity at a
later instant. -/
theorem capacity_invariant_preserved_witness :
    100 ≤ 200 ∧
    committedSeats (createReservation fxDb fxReq 100 20 30).2.reservations
      fxSession.id 200 ≤ fxSession.maxSeatsTotal :=
  ⟨by decide,
   (capacity_invariant_preserved fxDb 100 200 (by decide) (by decide) (by decide)
      (by decide)).1 fxReq 20 30 _ _ rfl fxSession (by decide)⟩

/-- Witness for C2: with guide 10 carrying a live hold of 3 pax and guide
11 empty, the engine picks 11 — a fitting candidate of minimal load. -/
theorem guide_assignment_correct_witness :
    11 ∈ [10, 11] ∧
    guideLoad [fxHoldRes] fxSession.id 11 100 + 1 ≤ fxSession.maxPerGuide ∧
    ∀ g' ∈ [10, 11], guideLoad [fxHoldRes] fxSession.id 11 100 ≤
      guideLoad [fxHoldRes] fxSession.id g' 100 :=
  (guide_assignment_correct).1 [fxHoldRes] fxSession 100 1 [10, 11] 11 (by decide)

/-! ### C7: the one-shot confirmation-email gate -/

/-- C7 (counterexample): at the fixture state the pull path applies the
confirm transition and fires the confirmation email while leaving
`confirmedEmailSentAt` null — no conditional update on the marker
happened, so the email was not sent "only by the caller whose
conditional update setting confirmedEmailSentAt from null succeeded". -/
theorem email_gate_counterexample :
    (statusGet (some (fxHoldRes, fxPayment, true)) (Except.ok fxStripeOk)).2.2 = true ∧
    Option.map (fun rp => rp.1.confirmedEmailSentAt)
      (statusGet (some (fxHoldRes, fxPayment, true)) (Except.ok fxStripeOk)).2.1 =
      some none := by
  exact ⟨by decide, by decide⟩

/-- The reservation row after the confirm transition. -/
def confirmResRow (res : Reservation) : Reservation :=
  { res with status := ReservationStatus.CONFIRMED, holdExpiresAt := none }

/-- The reservation row when the webhook also wins the email gate. -/
def confirmResRowMarked (res : Reservation) (now : Nat) : Reservation :=
  { res with status := ReservationStatus.CONFIRMED, holdExpiresAt := none,
             confirmedEmailSentAt := some now }

/-- The payment row after the webhook confirm. -/
def confirmPayRowWebhook (pay : Payment) (ss : StripeSession) : Payment :=
  { pay with status := PaymentStatus.SUCCEEDED,
             stripeCheckoutSessionId := some ss.id,
             stripePaymentIntentId := ss.paymentIntentId }

/-- The payment row after the pull-path confirm. -/
def confirmPayRowPull (pay : Payment) (ss : StripeSession) : Payment :=
  { pay with status := PaymentStatus.SUCCEEDED,
             stripePaymentIntentId := ss.paymentIntentId }

set_option maxHeartbeats 1600000 in
/-- C7 (amended): on the webhook path the confirmation email fires
exactly when the conditional one-shot update of `confirmedEmailSentAt`
from null wins, and re-delivering the same event to the confirmed state
is an idempotent no-op with no second email — CONFIRMED exactly once,
webhook notification at most once.  The status-poll pull path, however,
applies the same confirm transition and then fires its email whenever
the customer has an address, leaving `confirmedEmailSentAt` untouched:
it does not participate in the gate, so a push/pull race can notify
twice. -/
theorem confirmation_email_gate
    (ss : StripeSession) (res : Reservation) (pay : Payment) (now now2 : Nat)
    (amt : Int) (cur : String)
    (hpaid : ss.paymentStatus = "paid")
    (hres : res.status = ReservationStatus.HOLD)
    (hamt : ss.amountTotal = some amt) (hcur : ss.currency = some cur)
    (hmatch : amt = pay.amountCents ∧ strLower cur = strLower pay.currency) :
    ((webhookCompleted ss (some (res, pay)) now).2.2 = true ↔
        res.confirmedEmailSentAt = none) ∧
    (webhookCompleted ss (webhookCompleted ss (some (res, pay)) now).2.1 now2 =
      (WebhookOutcome.alreadyConfirmed,
       (webhookCompleted ss (some (res, pay)) now).2.1, false)) ∧
    (∀ hasEmail, isPendingPaymentStatus pay.status = true →
      statusGet (some (res, pay, hasEmail)) (Except.ok ss) =
        (StatusResponse.report ReservationStatus.CONFIRMED
          PaymentStatus.SUCCEEDED true none,
         some (confirmResRow res, confirmPayRowPull pay ss), hasEmail)) := by
  have hnc : ¬ (res.status = ReservationStatus.CONFIRMED ∧
      pay.status = PaymentStatus.SUCCEEDED) := by
    rw [hres]
    rintro ⟨h1, -⟩
    cases h1
  have hmm : ¬ (amt ≠ pay.amountCents ∨ strLower cur ≠ strLower pay.currency) := by
    rintro (h | h)
    · exact h hmatch.1
    · exact h hmatch.2
  have hout : webhookCompleted ss (some (res, pay)) now =
      if res.confirmedEmailSentAt = none then
        (WebhookOutcome.confirmed,
         some (confirmResRowMarked res now, confirmPayRowWebhook pay ss), true)
      else
        (WebhookOutcome.confirmed,
         some (confirmResRow res, confirmPayRowWebhook pay ss), false) := by
    unfold webhookCompleted
    rw [if_neg (by simp [hpaid])]
    dsimp only
    rw [if_neg hnc, if_neg (by simp [hres]), hamt, hcur]
    dsimp only
    rw [if_neg hmm]
    by_cases hg : res.confirmedEmailSentAt = none
    · rw [if_pos hg, if_pos hg]
      rfl
    · rw [if_neg hg, if_neg hg]
      rfl
  refine ⟨?_, ?_, ?_⟩
  · rw [hout]
    by_cases hg : res.confirmedEmailSentAt = none
    · rw [if_pos hg]
      simp [hg]
    · rw [if_neg hg]
      simp [hg]
  · rw [hout]
    by_cases hg : res.confirmedEmailSentAt = none
    · rw [if_pos hg]
      unfold webhookCompleted
      rw [if_neg (by simp [hpaid])]
      dsimp only
      rw [if_pos ⟨rfl, rfl⟩]
    · rw [if_neg hg]
      unfold webhookCompleted
      rw [if_neg (by simp [hpaid])]
      dsimp only
      rw [if_pos ⟨rfl, rfl⟩]
  · intro hasEmail hpend
    simp only [statusGet]
    rw [if_neg hnc, if_pos ⟨hres, hpend⟩]
    rw [if_neg (by simp [hpaid]), hamt, hcur]
    dsimp only
    rw [if_neg hmm]
    rfl

/-- Witness for C7's amended theorem at the fixture state: the webhook
wins the gate and fires exactly one email, and the pull path fires its
email while the marker stays null. -/
theorem confirmation_email_gate_witness :
    ((webhookCompleted fxStripeOk (some (fxHoldRes, fxPayment)) 500).2.2 = true ↔
        fxHoldRes.confirmedEmailSentAt = none) ∧
    statusGet (some (fxHoldRes, fxPayment, true)) (Except.ok fxStripeOk) =
      (StatusResponse.report ReservationStatus.CONFIRMED
        PaymentStatus.SUCCEEDED true none,
       some (confirmResRow fxHoldRes, confirmPayRowPull fxPayment fxStripeOk), true) := by
  have h := confirmation_email_gate fxStripeOk fxHoldRes fxPayment 500 600
    5000 "eur" rfl rfl rfl rfl ⟨by decide, by decide⟩
  exact ⟨h.1, h.2.2 true (by decide)⟩

/-! ### C8: the hold-expiry sweeper -/

/-- The reservations left by a sweep contain no expired hold. -/
lemma sweep_no_expired_left (rs : List Reservation) (ps : List Payment) (now : Nat) :
    ∀ r' ∈ (sweep rs ps now).1, isExpiredHold now r' = false := by
  intro r' hr'
  unfold sweep at hr'
  split at hr'
  · rename_i hemp
    have h1 : expiredIds rs now = [] := List.isEmpty_iff.mp hemp
    unfold expiredIds at h1
    have hfil := List.map_eq_nil_iff.mp h1
    have := List.filter_eq_nil_iff.mp hfil r' hr'
    simpa using this
  · obtain ⟨r, hr, hfr⟩ := List.mem_map.mp hr'
    by_cases hct : (expiredIds rs now).contains r.id = true
    · rw [if_pos hct] at hfr
      rw [← hfr]
      unfold isExpiredHold
      simp
    · rw [if_neg (by simpa using hct)] at hfr
      subst hfr
      by_cases hexp : isExpiredHold now r = true
      · exfalso
        apply hct
        have hm : r.id ∈ expiredIds rs now := by
          unfold expiredIds
          exact List.mem_map_of_mem _ (List.mem_filter.mpr ⟨hr, hexp⟩)
        exact List.elem_iff.mpr hm
      · simpa using hexp

/-- C8: the sweeper transitions exactly the reservations with
`status = HOLD` and `holdExpiresAt < now` to EXPIRED (clearing the
timer), cancels only payments still PENDING or REQUIRES_PAYMENT (any
other payment — in particular a SUCCEEDED one — survives unchanged),
and is idempotent: running it again on its own output is a no-op that
reports an expired count of zero. -/
theorem sweeper_correct :
    (∀ rs ps now, (rs.map (fun r => r.id)).Nodup →
       (sweep rs ps now).1 = rs.map (fun r =>
         if isExpiredHold now r
         then { r with status := ReservationStatus.EXPIRED, holdExpiresAt := none }
         else r)) ∧
    (∀ rs ps now p, p ∈ ps →
       ¬ (p.status = PaymentStatus.PENDING ∨
           p.status = PaymentStatus.REQUIRES_PAYMENT) →
       p ∈ (sweep rs ps now).2.1) ∧
    (∀ rs ps now,
       sweep (sweep rs ps now).1 (sweep rs ps now).2.1 now =
         ((sweep rs ps now).1, (sweep rs ps now).2.1, 0)) := by
  have hclean : ∀ (X : List Reservation) (Y : List Payment) (now : Nat),
      expiredIds X now = [] → sweep X Y now = (X, Y, 0) := by
    intro X Y now hX
    unfold sweep
    rw [hX]
    rfl
  refine ⟨?_, ?_, ?_⟩
  · intro rs ps now hnd
    unfold sweep
    split
    · rename_i hemp
      have h1 : expiredIds rs now = [] := List.isEmpty_iff.mp hemp
      unfold expiredIds at h1
      have hall := List.filter_eq_nil_iff.mp (List.map_eq_nil_iff.mp h1)
      have hmap : rs.map (fun r =>
          if isExpiredHold now r
          then { r with status := ReservationStatus.EXPIRED, holdExpiresAt := none }
          else r) = rs.map (fun r => r) :=
        List.map_congr_left (fun r hr => by
          rw [if_neg (by simpa using hall r hr)])
      rw [hmap, List.map_id']
    · refine List.map_congr_left (fun r hr => ?_)
      by_cases hexp : isExpiredHold now r = true
      · have hmem : r.id ∈ expiredIds rs now := by
          unfold expiredIds
          exact List.mem_map_of_mem _ (List.mem_filter.mpr ⟨hr, hexp⟩)
        rw [if_pos (List.elem_iff.mpr hmem), if_pos hexp]
      · have hnot : ¬ (expiredIds rs now).contains r.id = true := by
          intro hct
          obtain ⟨r', hmemf, hid⟩ := List.mem_map.mp (List.elem_iff.mp hct)
          obtain ⟨hr'mem, hr'exp⟩ := List.mem_filter.mp hmemf
          have : r' = r := List.inj_on_of_nodup_map hnd hr'mem hr hid
          exact hexp (this ▸ hr'exp)
        rw [if_neg hnot, if_neg hexp]
  · intro rs ps now p hp hst
    unfold sweep
    split
    · exact hp
    · have hcond : (p.status == PaymentStatus.PENDING ||
          p.status == PaymentStatus.REQUIRES_PAYMENT) = false := by
        rcases hps : p.status <;> simp_all
      refine List.mem_map.mpr ⟨p, hp, ?_⟩
      rw [if_neg (by simp [hcond])]
  · intro rs ps now
    have hfil : ((sweep rs ps now).1).filter (isExpiredHold now) = [] :=
      List.filter_eq_nil_iff.mpr (fun r hr => by
        simpa using sweep_no_expired_left rs ps now r hr)
    have hids : expiredIds (sweep rs ps now).1 now = [] := by
      unfold expiredIds
      rw [hfil]
      rfl
    exact hclean _ _ now hids

/-- Witness for C8: sweeping the fixture store with an expired hold
expires it, cancels its pending payment, and a second sweep is a no-op
reporting zero; the SUCCEEDED payment variant survives a sweep. -/
theorem sweeper_correct_witness :
    (sweep [{ fxHoldRes with holdExpiresAt := some 50 }] [fxPayment] 100).1 =
      [{ fxHoldRes with holdExpiresAt := some 50 }].map (fun r =>
        if isExpiredHold 100 r
        then { r with status := ReservationStatus.EXPIRED, holdExpiresAt := none }
        else r) ∧
    fxSucceededPayment ∈
      (sweep [{ fxHoldRes with holdExpiresAt := some 50 }]
        [fxSucceededPayment] 100).2.1 ∧
    sweep (sweep [{ fxHoldRes with holdExpiresAt := some 50 }] [fxPayment] 100).1
        (sweep [{ fxHoldRes with holdExpiresAt := some 50 }] [fxPayment] 100).2.1
        100 =
      ((sweep [{ fxHoldRes with holdExpiresAt := some 50 }] [fxPayment] 100).1,
       (sweep [{ fxHoldRes with holdExpiresAt := some 50 }] [fxPayment] 100).2.1,
       0) :=
  ⟨(sweeper_correct).1 [{ fxHoldRes with holdExpiresAt := some 50 }] [fxPayment]
      100 (by decide),
   (sweeper_correct).2.1 [{ fxHoldRes with holdExpiresAt := some 50 }]
      [fxSucceededPayment] 100 fxSucceededPayment (by decide) (by decide),
   (sweeper_correct).2.2 [{ fxHoldRes with holdExpiresAt := some 50 }]
      [fxPayment] 100⟩

/-! ### C9: the waitlist notifier's virtual-pool FIFO loop -/

/-- Total pax of the entries of a list whose ids were notified. -/
def notifiedPax (ids : List Nat) : List WaitEntry → Nat
  | [] => 0
  | e :: rest => (if ids.contains e.id then e.totalPax else 0) + notifiedPax ids rest

/-- Adding an id carried by no entry does not change the notified pax. -/
lemma notifiedPax_cons_id (ids : List Nat) (i : Nat) (entries : List WaitEntry)
    (h : ∀ e ∈ entries, e.id ≠ i) :
    notifiedPax (i :: ids) entries = notifiedPax ids entries := by
  induction entries with
  | nil => rfl
  | cons e rest ih =>
    simp only [notifiedPax]
    rw [ih (fun x hx => h x (List.mem_cons_of_mem e hx))]
    have hne : e.id ≠ i := h e (List.mem_cons_self e rest)
    congr 1
    simp [List.contains_cons, hne]

/-- No entry carries a listed id: the notified pax is zero. -/
lemma notifiedPax_zero (ids : List Nat) (entries : List WaitEntry)
    (h : ∀ e ∈ entries, ids.contains e.id = false) :
    notifiedPax ids entries = 0 := by
  induction entries with
  | nil => rfl
  | cons e rest ih =>
    simp only [notifiedPax]
    rw [h e (List.mem_cons_self e rest),
      ih (fun x hx => h x (List.mem_cons_of_mem e hx))]
    simp

/-- Every notified id belongs to some processed entry. -/
lemma runNotify_ids_subset (now : Nat) : ∀ (free : Nat) (entries : List WaitEntry),
    ∀ i ∈ (runNotify now free entries).2.1, ∃ e ∈ entries, e.id = i := by
  have ind := runNotify.induct now
  intro free entries
  induction free, entries using ind with
  | case1 free => intro i hi; simp [runNotify] at hi
  | case2 free e rest h1 ih =>
    intro i hi
    simp only [runNotify, if_pos h1] at hi
    obtain ⟨x, hx, hid⟩ := ih i hi
    exact ⟨x, List.mem_cons_of_mem e hx, hid⟩
  | case3 free e rest h1 h2 ih =>
    intro i hi
    simp only [runNotify, if_neg h1, if_pos h2] at hi
    obtain ⟨x, hx, hid⟩ := ih i hi
    exact ⟨x, List.mem_cons_of_mem e hx, hid⟩
  | case4 free e rest h1 h2 h3 ih =>
    intro i hi
    simp only [runNotify, if_neg h1, if_neg h2, if_pos h3] at hi
    obtain ⟨x, hx, hid⟩ := ih i hi
    exact ⟨x, List.mem_cons_of_mem e hx, hid⟩
  | case5 free e rest h1 h2 h3 h4 ih =>
    intro i hi
    simp only [runNotify, if_neg h1, if_neg h2, if_neg h3, if_pos h4] at hi
    obtain ⟨x, hx, hid⟩ := ih i hi
    exact ⟨x, List.mem_cons_of_mem e hx, hid⟩
  | case6 free e rest h1 h2 h3 h4 free2 h5 =>
    intro i hi
    simp only [runNotify, if_neg h1, if_neg h2, if_neg h3, if_neg h4,
      if_pos h5] at hi
    exact ⟨e, List.mem_cons_self e rest, (List.mem_singleton.mp hi).symm⟩
  | case7 free e rest h1 h2 h3 h4 free2 h5 ih =>
    intro i hi
    simp only [runNotify, if_neg h1, if_neg h2, if_neg h3, if_neg h4,
      if_neg h5] at hi
    rcases List.mem_cons.mp hi with rfl | hi
    · exact ⟨e, List.mem_cons_self e rest, rfl⟩
    · obtain ⟨x, hx, hid⟩ := ih i hi
      exact ⟨x, List.mem_cons_of_mem e hx, hid⟩

/-- A notified entry fits the virtual pool it was offered. -/
lemma runNotify_pax_le (now : Nat) : ∀ (free : Nat) (entries : List WaitEntry),
    (entries.map (fun e => e.id)).Nodup →
    ∀ e ∈ entries, e.id ∈ (runNotify now free entries).2.1 → e.totalPax ≤ free := by
  have ind := runNotify.induct now
  intro free entries
  induction free, entries using ind with
  | case1 free => intro _ e he; cases he
  | case2 free h hrest h1 ih =>
    intro hnd e he hid
    simp only [runNotify, if_pos h1] at hid
    rw [List.map_cons] at hnd
    obtain ⟨hhead, hndr⟩ := List.nodup_cons.mp hnd
    rcases List.mem_cons.mp he with rfl | he
    · exfalso
      obtain ⟨x, hx, hxid⟩ := runNotify_ids_subset now free hrest e.id hid
      exact hhead (hxid ▸ List.mem_map_of_mem (fun y => y.id) hx)
    · exact ih hndr e he hid
  | case3 free h hrest h1 h2 ih =>
    intro hnd e he hid
    simp only [runNotify, if_neg h1, if_pos h2] at hid
    rw [List.map_cons] at hnd
    obtain ⟨hhead, hndr⟩ := List.nodup_cons.mp hnd
    rcases List.mem_cons.mp he with rfl | he
    · exfalso
      obtain ⟨x, hx, hxid⟩ := runNotify_ids_subset now free hrest e.id hid
      exact hhead (hxid ▸ List.mem_map_of_mem (fun y => y.id) hx)
    · exact ih hndr e he hid
  | case4 free h hrest h1 h2 h3 ih =>
    intro hnd e he hid
    simp only [runNotify, if_neg h1, if_neg h2, if_pos h3] at hid
    rw [List.map_cons] at hnd
    obtain ⟨hhead, hndr⟩ := List.nodup_cons.mp hnd
    rcases List.mem_cons.mp he with rfl | he
    · exfalso
      obtain ⟨x, hx, hxid⟩ := runNotify_ids_subset now free hrest e.id hid
      exact hhead (hxid ▸ List.mem_map_of_mem (fun y => y.id) hx)
    · exact ih hndr e he hid
  | case5 free h hrest h1 h2 h3 h4 ih =>
    intro hnd e he hid
    simp only [runNotify, if_neg h1, if_neg h2, if_neg h3, if_pos h4] at hid
    rw [List.map_cons] at hnd
    obtain ⟨hhead, hndr⟩ := List.nodup_cons.mp hnd
    rcases List.mem_cons.mp he with rfl | he
    · exfalso
      obtain ⟨x, hx, hxid⟩ := runNotify_ids_subset now free hrest e.id hid
      exact hhead (hxid ▸ List.mem_map_of_mem (fun y => y.id) hx)
    · exact ih hndr e he hid
  | case6 free h hrest h1 h2 h3 h4 free2 h5 =>
    intro hnd e he hid
    simp only [runNotify, if_neg h1, if_neg h2, if_neg h3, if_neg h4,
      if_pos h5] at hid
    rw [List.map_cons] at hnd
    obtain ⟨hhead, hndr⟩ := List.nodup_cons.mp hnd
    rcases List.mem_cons.mp he with rfl | he
    · exact Nat.le_of_not_lt h1
    · exfalso
      have hx : e.id = h.id := List.mem_singleton.mp hid
      exact hhead (hx ▸ List.mem_map_of_mem (fun y => y.id) he)
  | case7 free h hrest h1 h2 h3 h4 free2 h5 ih =>
    intro hnd e he hid
    simp only [runNotify, if_neg h1, if_neg h2, if_neg h3, if_neg h4,
      if_neg h5] at hid
    rw [List.map_cons] at hnd
    obtain ⟨hhead, hndr⟩ := List.nodup_cons.mp hnd
    rcases List.mem_cons.mp he with rfl | he
    · exact Nat.le_of_not_lt h1
    · rcases List.mem_cons.mp hid with heq | hid
      · exact absurd (heq ▸ List.mem_map_of_mem (fun y => y.id) he) hhead
      · exact Nat.le_trans (ih hndr e he hid) (Nat.sub_le free h.totalPax)

/-- The virtual pool accounts exactly for the notified pax: initial free
seats = remaining pool + total pax over the notified entries. -/
lemma runNotify_sum (now : Nat) : ∀ (free : Nat) (entries : List WaitEntry),
    (entries.map (fun e => e.id)).Nodup →
    notifiedPax (runNotify now free entries).2.1 entries +
      (runNotify now free entries).2.2.2 = free := by
  have ind := runNotify.induct now
  intro free entries
  induction free, entries using ind with
  | case1 free => intro _; simp [runNotify, notifiedPax]
  | case2 free h hrest h1 ih =>
    intro hnd
    rw [List.map_cons] at hnd
    obtain ⟨hhead, hndr⟩ := List.nodup_cons.mp hnd
    simp only [runNotify, if_pos h1, notifiedPax]
    have hzero : ((runNotify now free hrest).2.1).contains h.id = false := by
      by_cases hc : ((runNotify now free hrest).2.1).contains h.id = true
      · exfalso
        obtain ⟨x, hx, hxid⟩ :=
          runNotify_ids_subset now free hrest h.id (List.elem_iff.mp hc)
        exact hhead (hxid ▸ List.mem_map_of_mem (fun y => y.id) hx)
      · simpa using hc
    rw [hzero]
    simpa using ih hndr
  | case3 free h hrest h1 h2 ih =>
    intro hnd
    rw [List.map_cons] at hnd
    obtain ⟨hhead, hndr⟩ := List.nodup_cons.mp hnd
    simp only [runNotify, if_neg h1, if_pos h2, notifiedPax]
    have hzero : ((runNotify now free hrest).2.1).contains h.id = false := by
      by_cases hc : ((runNotify now free hrest).2.1).contains h.id = true
      · exfalso
        obtain ⟨x, hx, hxid⟩ :=
          runNotify_ids_subset now free hrest h.id (List.elem_iff.mp hc)
        exact hhead (hxid ▸ List.mem_map_of_mem (fun y => y.id) hx)
      · simpa using hc
    rw [hzero]
    simpa using ih hndr
  | case4 free h hrest h1 h2 h3 ih =>
    intro hnd
    rw [List.map_cons] at hnd
    obtain ⟨hhead, hndr⟩ := List.nodup_cons.mp hnd
    simp only [runNotify, if_neg h1, if_neg h2, if_pos h3, notifiedPax]
    have hzero : ((runNotify now free hrest).2.1).contains h.id = false := by
      by_cases hc : ((runNotify now free hrest).2.1).contains h.id = true
      · exfalso
        obtain ⟨x, hx, hxid⟩ :=
          runNotify_ids_subset now free hrest h.id (List.elem_iff.mp hc)
        exact hhead (hxid ▸ List.mem_map_of_mem (fun y => y.id) hx)
      · simpa using hc
    rw [hzero]
    simpa using ih hndr
  | case5 free h hrest h1 h2 h3 h4 ih =>
    intro hnd
    rw [List.map_cons] at hnd
    obtain ⟨hhead, hndr⟩ := List.nodup_cons.mp hnd
    simp only [runNotify, if_neg h1, if_neg h2, if_neg h3, if_pos h4, notifiedPax]
    have hzero : ((runNotify now free hrest).2.1).contains h.id = false := by
      by_cases hc : ((runNotify now free hrest).2.1).contains h.id = true
      · exfalso
        obtain ⟨x, hx, hxid⟩ :=
          runNotify_ids_subset now free hrest h.id (List.elem_iff.mp hc)
        exact hhead (hxid ▸ List.mem_map_of_mem (fun y => y.id) hx)
      · simpa using hc
    rw [hzero]
    simpa using ih hndr
  | case6 free h hrest h1 h2 h3 h4 free2 h5 =>
    intro hnd
    rw [List.map_cons] at hnd
    obtain ⟨hhead, hndr⟩ := List.nodup_cons.mp hnd
    simp only [runNotify, if_neg h1, if_neg h2, if_neg h3, if_neg h4,
      if_pos h5, notifiedPax]
    have hz : notifiedPax [h.id] hrest = 0 := by
      refine notifiedPax_zero _ _ (fun x hx => ?_)
      by_cases hc : ([h.id]).contains x.id = true
      · exfalso
        have hxid : x.id = h.id := by simpa using hc
        exact hhead (hxid ▸ List.mem_map_of_mem (fun y => y.id) hx)
      · simpa using hc
    rw [hz]
    have h5' : free - h.totalPax = 0 := h5
    simp only [List.contains_cons]
    simp
    omega
  | case7 free h hrest h1 h2 h3 h4 free2 h5 ih =>
    intro hnd
    rw [List.map_cons] at hnd
    obtain ⟨hhead, hndr⟩ := List.nodup_cons.mp hnd
    simp only [runNotify, if_neg h1, if_neg h2, if_neg h3, if_neg h4,
      if_neg h5, notifiedPax]
    have hne : ∀ x ∈ hrest, x.id ≠ h.id := fun x hx hxid =>
      hhead (hxid ▸ List.mem_map_of_mem (fun y => y.id) hx)
    have hcons := notifiedPax_cons_id
      (runNotify now (free - h.totalPax) hrest).2.1 h.id hrest hne
    have hx : notifiedPax (runNotify now (free - h.totalPax) hrest).2.1 hrest +
        (runNotify now (free - h.totalPax) hrest).2.2.2 = free - h.totalPax :=
      ih hndr
    rw [hcons]
    simp only [List.contains_cons]
    simp
    omega

/-- A notified entry had a null marker when considered (the conditional
one-shot update only fires on a null `availabilityEmailSentAt`). -/
lemma runNotify_marker (now : Nat) : ∀ (free : Nat) (entries : List WaitEntry),
    (entries.map (fun e => e.id)).Nodup →
    ∀ e ∈ entries, e.id ∈ (runNotify now free entries).2.1 →
      e.availabilityEmailSentAt = none := by
  have ind := runNotify.induct now
  intro free entries
  induction free, entries using ind with
  | case1 free => intro _ e he; cases he
  | case2 free h hrest h1 ih =>
    intro hnd e he hid
    simp only [runNotify, if_pos h1] at hid
    rw [List.map_cons] at hnd
    obtain ⟨hhead, hndr⟩ := List.nodup_cons.mp hnd
    rcases List.mem_cons.mp he with rfl | he
    · exfalso
      obtain ⟨x, hx, hxid⟩ := runNotify_ids_subset now free hrest e.id hid
      exact hhead (hxid ▸ List.mem_map_of_mem (fun y => y.id) hx)
    · exact ih hndr e he hid
  | case3 free h hrest h1 h2 ih =>
    intro hnd e he hid
    simp only [runNotify, if_neg h1, if_pos h2] at hid
    rw [List.map_cons] at hnd
    obtain ⟨hhead, hndr⟩ := List.nodup_cons.mp hnd
    rcases List.mem_cons.mp he with rfl | he
    · exfalso
      obtain ⟨x, hx, hxid⟩ := runNotify_ids_subset now free hrest e.id hid
      exact hhead (hxid ▸ List.mem_map_of_mem (fun y => y.id) hx)
    · exact ih hndr e he hid
  | case4 free h hrest h1 h2 h3 ih =>
    intro hnd e he hid
    simp only [runNotify, if_neg h1, if_neg h2, if_pos h3] at hid
    rw [List.map_cons] at hnd
    obtain ⟨hhead, hndr⟩ := List.nodup_cons.mp hnd
    rcases List.mem_cons.mp he with rfl | he
    · exfalso
      obtain ⟨x, hx, hxid⟩ := runNotify_ids_subset now free hrest e.id hid
      exact hhead (hxid ▸ List.mem_map_of_mem (fun y => y.id) hx)
    · exact ih hndr e he hid
  | case5 free h hrest h1 h2 h3 h4 ih =>
    intro hnd e he hid
    simp only [runNotify, if_neg h1, if_neg h2, if_neg h3, if_pos h4] at hid
    rw [List.map_cons] at hnd
    obtain ⟨hhead, hndr⟩ := List.nodup_cons.mp hnd
    rcases List.mem_cons.mp he with rfl | he
    · exfalso
      obtain ⟨x, hx, hxid⟩ := runNotify_ids_subset now free hrest e.id hid
      exact hhead (hxid ▸ List.mem_map_of_mem (fun y => y.id) hx)
    · exact ih hndr e he hid
  | case6 free h hrest h1 h2 h3 h4 free2 h5 =>
    intro hnd e he hid
    simp only [runNotify, if_neg h1, if_neg h2, if_neg h3, if_neg h4,
      if_pos h5] at hid
    rw [List.map_cons] at hnd
    obtain ⟨hhead, hndr⟩ := List.nodup_cons.mp hnd
    rcases List.mem_cons.mp he with rfl | he
    · exact Option.not_isSome_iff_eq_none.mp (by simpa using h2)
    · exfalso
      have hx : e.id = h.id := List.mem_singleton.mp hid
      exact hhead (hx ▸ List.mem_map_of_mem (fun y => y.id) he)
  | case7 free h hrest h1 h2 h3 h4 free2 h5 ih =>
    intro hnd e he hid
    simp only [runNotify, if_neg h1, if_neg h2, if_neg h3, if_neg h4,
      if_neg h5] at hid
    rw [List.map_cons] at hnd
    obtain ⟨hhead, hndr⟩ := List.nodup_cons.mp hnd
    rcases List.mem_cons.mp he with rfl | he
    · exact Option.not_isSome_iff_eq_none.mp (by simpa using h2)
    · rcases List.mem_cons.mp hid with heq | hid
      · exact absurd (heq ▸ List.mem_map_of_mem (fun y => y.id) he) hhead
      · exact ih hndr e he hid

/-- FIFO preference: a skipped earlier party (null marker, address
present, send would succeed) is strictly larger than any later notified
party — earlier-arrived parties that fit are always preferred. -/
lemma runNotify_fifo (now : Nat) : ∀ (free : Nat) (entries : List WaitEntry),
    (entries.map (fun e => e.id)).Nodup →
    ∀ d e, [d, e].Sublist entries →
      d.availabilityEmailSentAt = none → d.hasEmail = true → d.sendOk = true →
      d.id ∉ (runNotify now free entries).2.1 →
      e.id ∈ (runNotify now free entries).2.1 →
      e.totalPax < d.totalPax := by
  have ind := runNotify.induct now
  intro free entries
  induction free, entries using ind with
  | case1 free =>
    intro _ d e hsub
    cases hsub
  | case2 free h hrest h1 ih =>
    intro hnd d e hsub hdm hde hds hdnot hein
    simp only [runNotify, if_pos h1] at hdnot hein
    rw [List.map_cons] at hnd
    obtain ⟨hhead, hndr⟩ := List.nodup_cons.mp hnd
    cases hsub with
    | cons _ h' => exact ih hndr d e h' hdm hde hds hdnot hein
    | cons₂ _ h' =>
      have hemem : e ∈ hrest := h'.subset (List.mem_cons_self e [])
      have := runNotify_pax_le now free hrest hndr e hemem hein
      exact Nat.lt_of_le_of_lt this h1
  | case3 free h hrest h1 h2 ih =>
    intro hnd d e hsub hdm hde hds hdnot hein
    simp only [runNotify, if_neg h1, if_pos h2] at hdnot hein
    rw [List.map_cons] at hnd
    obtain ⟨hhead, hndr⟩ := List.nodup_cons.mp hnd
    cases hsub with
    | cons _ h' => exact ih hndr d e h' hdm hde hds hdnot hein
    | cons₂ _ h' =>
      rw [hdm] at h2
      simp at h2
  | case4 free h hrest h1 h2 h3 ih =>
    intro hnd d e hsub hdm hde hds hdnot hein
    simp only [runNotify, if_neg h1, if_neg h2, if_pos h3] at hdnot hein
    rw [List.map_cons] at hnd
    obtain ⟨hhead, hndr⟩ := List.nodup_cons.mp hnd
    cases hsub with
    | cons _ h' => exact ih hndr d e h' hdm hde hds hdnot hein
    | cons₂ _ h' => exact absurd hde h3
  | case5 free h hrest h1 h2 h3 h4 ih =>
    intro hnd d e hsub hdm hde hds hdnot hein
    simp only [runNotify, if_neg h1, if_neg h2, if_neg h3, if_pos h4] at hdnot hein
    rw [List.map_cons] at hnd
    obtain ⟨hhead, hndr⟩ := List.nodup_cons.mp hnd
    cases hsub with
    | cons _ h' => exact ih hndr d e h' hdm hde hds hdnot hein
    | cons₂ _ h' => exact absurd hds h4
  | case6 free h hrest h1 h2 h3 h4 free2 h5 =>
    intro hnd d e hsub hdm hde hds hdnot hein
    simp only [runNotify, if_neg h1, if_neg h2, if_neg h3, if_neg h4,
      if_pos h5] at hdnot hein
    rw [List.map_cons] at hnd
    obtain ⟨hhead, hndr⟩ := List.nodup_cons.mp hnd
    cases hsub with
    | cons _ h' =>
      exfalso
      have hemem : e ∈ hrest := h'.subset (by simp)
      have hx : e.id = h.id := List.mem_singleton.mp hein
      exact hhead (hx ▸ List.mem_map_of_mem (fun y => y.id) hemem)
    | cons₂ _ h' =>
      exact absurd (List.mem_singleton.mpr rfl) hdnot
  | case7 free h hrest h1 h2 h3 h4 free2 h5 ih =>
    intro hnd d e hsub hdm hde hds hdnot hein
    simp only [runNotify, if_neg h1, if_neg h2, if_neg h3, if_neg h4,
      if_neg h5] at hdnot hein
    rw [List.map_cons] at hnd
    obtain ⟨hhead, hndr⟩ := List.nodup_cons.mp hnd
    cases hsub with
    | cons _ h' =>
      have hdnot2 : d.id ∉ (runNotify now (free - h.totalPax) hrest).2.1 :=
        fun hc => hdnot (List.mem_cons_of_mem _ hc)
      rcases List.mem_cons.mp hein with heq | hein2
      · exfalso
        have hemem : e ∈ hrest := h'.subset (by simp)
        exact hhead (heq ▸ List.mem_map_of_mem (fun y => y.id) hemem)
      · exact ih hndr d e h' hdm hde hds hdnot2 hein2
    | cons₂ _ h' =>
      exact absurd (List.mem_cons_self _ _) hdnot

/-- C9: the waitlist notifier loop walks the WAITING entries in arrival
order against a virtual free-seat pool: the pool decreases by exactly
the pax of each notified party (so the pax notified never exceed the
scan-time free seats, and the loop stops at zero), every notified entry
had a null one-shot marker and fitted the pool, and a skipped
earlier-arrived party is strictly larger than any later notified one. -/
theorem waitlist_notifier_fifo (now free : Nat) (entries : List WaitEntry)
    (hnd : (entries.map (fun e => e.id)).Nodup) :
    notifiedPax (runNotify now free entries).2.1 entries +
        (runNotify now free entries).2.2.2 = free ∧
    (∀ e ∈ entries, e.id ∈ (runNotify now free entries).2.1 →
       e.availabilityEmailSentAt = none ∧ e.totalPax ≤ free) ∧
    (∀ d e, [d, e].Sublist entries →
       d.availabilityEmailSentAt = none → d.hasEmail = true → d.sendOk = true →
       d.id ∉ (runNotify now free entries).2.1 →
       e.id ∈ (runNotify now free entries).2.1 →
       e.totalPax < d.totalPax) :=
  ⟨runNotify_sum now free entries hnd,
   fun e he hid => ⟨runNotify_marker now free entries hnd e he hid,
     runNotify_pax_le now free entries hnd e he hid⟩,
   fun d e hsub hdm hde hds hdnot hein =>
     runNotify_fifo now free entries hnd d e hsub hdm hde hds hdnot hein⟩

/-- Two fixture waitlist entries: a party of three ahead of a party of two. -/
def fxEntryA : WaitEntry :=
  { id := 1, totalPax := 3, availabilityEmailSentAt := none,
    hasEmail := true, sendOk := true }

/-- The later, smaller party. -/
def fxEntryB : WaitEntry :=
  { id := 2, totalPax := 2, availabilityEmailSentAt := none,
    hasEmail := true, sendOk := true }

/-- Witness for C9 with a pool of two seats: the earlier party of three
is skipped only because it does not fit, the party of two is notified,
the accounting adds up, and the FIFO bound holds at these entries. -/
theorem waitlist_notifier_fifo_witness :
    notifiedPax (runNotify 999 2 [fxEntryA, fxEntryB]).2.1 [fxEntryA, fxEntryB] +
        (runNotify 999 2 [fxEntryA, fxEntryB]).2.2.2 = 2 ∧
    fxEntryB.totalPax < fxEntryA.totalPax := by
  have h := waitlist_notifier_fifo 999 2 [fxEntryA, fxEntryB] (by decide)
  refine ⟨h.1, ?_⟩
  exact h.2.2 fxEntryA fxEntryB (by decide) (by decide) (by decide) (by decide)
    (by decide) (by decide)

set_option maxHeartbeats 1600000 in
/-- C10: every error exit of the creation handler (missing fields, bad
pax counts, session not found, cancelled, closed, duplicate customer)
happens before the reservation and payment creates, so on an error
response the Reservation and Payment tables are exactly the input ones;
only the Customer upsert of the duplicate path lies outside this frame. -/
theorem creation_error_frame (db : DB) (req : CreateRequest)
    (now cid rid : Nat) (res : CreateResult) (db2 : DB) (st : Nat) (msg : String)
    (hout : createReservation db req now cid rid = (res, db2))
    (herr : res = CreateResult.error st msg) :
    db2.reservations = db.reservations ∧ db2.payments = db.payments := by
  unfold createReservation at hout
  split at hout
  · cases hout; exact ⟨rfl, rfl⟩
  split at hout
  · cases hout; exact ⟨rfl, rfl⟩
  split at hout
  · cases hout; exact ⟨rfl, rfl⟩
  split at hout
  · cases hout; exact ⟨rfl, rfl⟩
  split at hout
  · cases hout; exact ⟨rfl, rfl⟩
  split at hout
  · cases hout; exact ⟨rfl, rfl⟩
  split at hout
  · cases hout; exact ⟨rfl, rfl⟩
  split at hout
  · cases hout; simp at herr
  split at hout
  · cases hout; simp at herr
  split at hout
  · cases hout; simp at herr
  cases hout; simp at herr

/-- A creation request missing its session id. -/
def fxBadReq : CreateRequest :=
  { fxReq with sessionId := none }

/-- Witness for C10: at the missing-fields error the store's reservation
and payment tables come back unchanged. -/
theorem creation_error_frame_witness :
    ((createReservation fxDb fxBadReq 500000 21 31).2).reservations =
        fxDb.reservations ∧
    ((createReservation fxDb fxBadReq 500000 21 31).2).payments =
        fxDb.payments :=
  creation_error_frame fxDb fxBadReq 500000 21 31
    (CreateResult.error 400 "Missing required fields")
    (createReservation fxDb fxBadReq 500000 21 31).2
    400 "Missing required fields" rfl rfl

end DeltaRoutes
